import Mathlib

/-!
# Verification of the macroscopia vision pipeline

Shallow embedding of the calibration-and-measurement engine of the
macroscopia repository (`backend/services/vision_service.py`,
`backend/services/calibration_helper.py`,
`backend/services/perspective_correction.py`).

Conventions of the embedding:

* Python floats are modelled as `ℚ` with exact arithmetic.  Guarded
  divisions in the source (`x / y if y > 0 else d`) are translated as
  written; Lean's total division (`q / 0 = 0`) only matters where noted
  in a comment.
* The OpenCV / numpy primitives (`cv2.HoughLines`, `cv2.contourArea`,
  `cv2.fitEllipse`, ...) are the library boundary: their *outputs* (line
  parameters, contour geometry, peak positions) are inputs of the
  embedded functions, and all arithmetic performed on those outputs by
  the repository's own code is translated exactly.
* `np.pi` is the rational value of the IEEE-754 double closest to π.
* `np.sqrt`/`math.sqrt` is an uninterpreted parameter `sqrtA : ℚ → ℚ`;
  no claim depends on its values.
* The pipeline can produce one non-real float: the morphological
  detector's `0.0/0.0` (IEEE NaN).  `MethodResult` carries an explicit
  `confidence_isNaN` marker for it; see the structure's doc comment for
  why the marker plus a stored 0 is observationally identical to NaN in
  the best-confidence scan.
* Warning strings built with Python f-string interpolation are modelled
  by the inductive `Warning`, one constructor per format string, carrying
  the interpolated numbers.
-/

namespace Macroscopia

/-- The exact rational value of the IEEE-754 double `np.pi`. -/
def piQ : ℚ := 884279719003555 / 281474976710656

/-- Successive differences of a list, `np.diff`. -/
def npdiff : List ℚ → List ℚ
  | a :: b :: rest => (b - a) :: npdiff (b :: rest)
  | _ => []

/-- Arithmetic mean of a list, `np.mean` (the source only applies it to
nonempty lists; on `[]` Lean's total division yields `0`, a case the
source never reaches because of its explicit length guards). -/
def npmean (xs : List ℚ) : ℚ := xs.sum / xs.length

/-- `list.sort()` on floats: sort in nondecreasing order. -/
def pysort (xs : List ℚ) : List ℚ := xs.insertionSort (· ≤ ·)

/-- `np.mean(np.diff(lines)) if len(lines) > 1 else 0` after `lines.sort()`
(the spacing computation shared by the Hough, morphological and relaxed
grid detectors in `vision_service.py`). -/
def meanSpacing (lines : List ℚ) : ℚ :=
  if 1 < lines.length then npmean (npdiff (pysort lines)) else 0

theorem npdiff_nonneg {l : List ℚ} (h : l.Sorted (· ≤ ·)) :
    ∀ x ∈ npdiff l, 0 ≤ x := by
  induction l with
  | nil => intro x hx; simp [npdiff] at hx
  | cons a t ih =>
    cases t with
    | nil => intro x hx; simp [npdiff] at hx
    | cons b r =>
      intro x hx
      rw [npdiff] at hx
      rcases List.mem_cons.mp hx with hx | hx
      · have hab : a ≤ b := (List.sorted_cons.mp h).1 b (by simp)
        simpa [hx] using sub_nonneg.mpr hab
      · exact ih (List.sorted_cons.mp h).2 x hx

theorem npmean_nonneg {xs : List ℚ} (h : ∀ x ∈ xs, 0 ≤ x) : 0 ≤ npmean xs := by
  unfold npmean
  exact div_nonneg (List.sum_nonneg h) (by positivity)

theorem meanSpacing_nonneg (lines : List ℚ) : 0 ≤ meanSpacing lines := by
  unfold meanSpacing
  split
  · exact npmean_nonneg (npdiff_nonneg (List.sorted_insertionSort _ lines))
  · exact le_refl 0

/-! ## Grid detectors (`VisionService._detect_grid_*`)

Each detector receives the output of the OpenCV call it starts from
(`cv2.HoughLines` line parameters as `(rho, theta)` pairs, contour
centroid positions, FFT peak indices) and performs the repository's own
arithmetic on it. -/

/-- A single detection method's result dictionary:
`{'confidence': ..., 'pixels_per_mm': ..., 'method_used': ..., 'quality_score': ...}`.
The failure dictionaries `{'confidence': 0, 'method_used': m}` are
represented with `pixels_per_mm = 0` and `quality_score = 0` (those keys
are absent in the source; a result with confidence 0 is never selected,
so the values are never read).

`confidence_isNaN = true` marks the one case in which the source's
confidence is IEEE NaN rather than a real number (the morphological
detector with coincident centroids, which divides 0.0 by 0.0).  A
NaN-marked result stores `confidence = 0` and `quality_score = 0`:
every comparison against a NaN is false in Python, and the strict
comparison `0 > best_confidence` is equally false because the running
best confidence never goes below its initial 0
(`pickBest_snd_nonneg`), so the marker plus stored 0 is observationally
identical to the NaN in the selection scan — the marked result can
never be selected, exactly as in the source. -/
structure MethodResult where
  confidence : ℚ
  confidence_isNaN : Bool
  pixels_per_mm : ℚ
  method_used : String
  quality_score : ℚ
  deriving DecidableEq, Repr

/-- Classification of Hough lines into horizontal / vertical rho lists:
`if abs(theta) < tol or abs(theta - pi) < tol: h.append(rho)
elif abs(theta - pi/2) < tol: v.append(rho)` over the line list. -/
def classifyLines (tol : ℚ) (lines : List (ℚ × ℚ)) : List ℚ × List ℚ :=
  lines.foldr
    (fun p acc =>
      if |p.2| < tol ∨ |p.2 - piQ| < tol then (p.1 :: acc.1, acc.2)
      else if |p.2 - piQ / 2| < tol then (acc.1, p.1 :: acc.2)
      else acc)
    ([], [])

/-- `VisionService._detect_grid_hough`.  `lines` is the best
`cv2.HoughLines` sweep result (`None` when no lines were found). -/
def detect_grid_hough (lines : Option (List (ℚ × ℚ))) (grid_size_mm : ℚ) :
    MethodResult :=
  match lines with
  | none => ⟨0, false, 0, "hough", 0⟩
  | some ls =>
    let hv := classifyLines 0.2 ls
    let h_spacing := meanSpacing hv.1
    let v_spacing := meanSpacing hv.2
    if 0 < h_spacing ∧ 0 < v_spacing then
      let avg_spacing := (h_spacing + v_spacing) / 2
      let pixels_per_mm := avg_spacing / grid_size_mm
      let expected_spacing := avg_spacing
      let spacing_accuracy :=
        1 - min 1 (|h_spacing - expected_spacing| / expected_spacing)
      let regularity := 1 - |h_spacing - v_spacing| / max h_spacing v_spacing
      let line_count_factor :=
        min 1 (((hv.1.length : ℚ) + (hv.2.length : ℚ)) / 15)
      let grid_consistency :=
        spacing_accuracy * 0.4 + regularity * 0.3 + line_count_factor * 0.3
      ⟨grid_consistency * 0.9, false, pixels_per_mm, "hough", regularity⟩
    else ⟨0, false, 0, "hough", 0⟩

/-- `VisionService._detect_grid_morphological`.  `h_positions` /
`v_positions` are the centroid coordinates of the line contours whose
area cleared the noise filter. -/
def detect_grid_morphological (h_positions v_positions : List ℚ)
    (grid_size_mm : ℚ) : MethodResult :=
  if 2 < h_positions.length ∧ 2 < v_positions.length then
    let h_spacing := meanSpacing h_positions
    let v_spacing := meanSpacing v_positions
    let avg_spacing := (h_spacing + v_spacing) / 2
    let pixels_per_mm := avg_spacing / grid_size_mm
    if max h_spacing v_spacing = 0 then
      -- The regularity term divides `abs(h_spacing - v_spacing)` by
      -- `max(h_spacing, v_spacing)`; when that maximum is 0 (all
      -- centroids coincident in both orientations — spacings of sorted
      -- positions are nonnegative, so the maximum is 0 exactly when
      -- both spacings are) the source computes 0.0/0.0 = NaN, which
      -- propagates into the confidence and quality score.  (The two
      -- accuracy terms' 0.0/0.0 NaNs are absorbed by the builtin
      -- `min`, whose comparison against NaN is false, so they come out
      -- as 0.)  The produced confidence is therefore IEEE NaN, marked
      -- here by `confidence_isNaN`; `pixels_per_mm` is the real 0.
      ⟨0, true, pixels_per_mm, "morphological", 0⟩
    else
      let expected_spacing := avg_spacing
      let h_accuracy :=
        1 - min 1 (|h_spacing - expected_spacing| / expected_spacing)
      let v_accuracy :=
        1 - min 1 (|v_spacing - expected_spacing| / expected_spacing)
      let regularity := 1 - |h_spacing - v_spacing| / max h_spacing v_spacing
      let grid_quality := (h_accuracy + v_accuracy + regularity) / 3
      ⟨grid_quality * 0.8, false, pixels_per_mm, "morphological", regularity⟩
  else ⟨0, false, 0, "morphological", 0⟩

/-- `VisionService._detect_grid_frequency`.  `w`/`h` are the image
dimensions, `h_peaks`/`v_peaks` the FFT peak indices found by
`_find_frequency_peaks` on the central axes. -/
def detect_grid_frequency (w h : ℕ) (h_peaks v_peaks : List ℕ)
    (grid_size_mm : ℚ) : MethodResult :=
  if 0 < h_peaks.length ∧ 0 < v_peaks.length then
    let hmax := h_peaks.foldr max 0
    let vmax := v_peaks.foldr max 0
    let h_period : ℚ := if 0 < hmax then (w : ℚ) / (hmax : ℚ) else 0
    let v_period : ℚ := if 0 < vmax then (h : ℚ) / (vmax : ℚ) else 0
    if 0 < h_period ∧ 0 < v_period then
      let avg_period := (h_period + v_period) / 2
      let pixels_per_mm := avg_period / grid_size_mm
      let confidence :=
        min 0.6 (((h_peaks.length : ℚ) + (v_peaks.length : ℚ)) / 10)
      ⟨confidence, false, pixels_per_mm, "frequency", confidence⟩
    else ⟨0, false, 0, "frequency", 0⟩
  else ⟨0, false, 0, "frequency", 0⟩

/-- `VisionService._detect_grid_relaxed`.  `best_lines` is the best
Hough sweep over the blurred-edge attempts (`None` when every attempt
returned nothing). -/
def detect_grid_relaxed (best_lines : Option (List (ℚ × ℚ)))
    (grid_size_mm : ℚ) : MethodResult :=
  match best_lines with
  | none => ⟨0, false, 0, "relaxed_fallback", 0⟩
  | some ls =>
    if ls.length < 4 then ⟨0, false, 0, "relaxed_fallback", 0⟩
    else
      let hv := classifyLines 0.4 ls
      if 2 ≤ hv.1.length ∧ 2 ≤ hv.2.length then
        let h_spacing := meanSpacing hv.1
        let v_spacing := meanSpacing hv.2
        if 0 < h_spacing ∧ 0 < v_spacing then
          let avg_spacing := (h_spacing + v_spacing) / 2
          let pixels_per_mm := avg_spacing / grid_size_mm
          let confidence :=
            min 0.4 (((hv.1.length : ℚ) + (hv.2.length : ℚ)) / 20)
          ⟨confidence, false, pixels_per_mm, "relaxed_fallback", confidence⟩
        else ⟨0, false, 0, "relaxed_fallback", 0⟩
      else ⟨0, false, 0, "relaxed_fallback", 0⟩

/-- The best-result scan shared by `detect_grid_advanced` and
`segment_biopsy`: iterate, keeping the first result whose confidence is
strictly greater than every earlier one (`best_confidence` starts at 0). -/
def pickBest {α : Type} (conf : α → ℚ) (xs : List α) : Option α × ℚ :=
  xs.foldl (fun acc r => if conf r > acc.2 then (some r, conf r) else acc)
    (none, 0)

/-- The progressive confidence thresholds of `detect_grid_advanced`,
tried from strictest to loosest. -/
def gridThresholds : List ℚ := [0.7, 0.5, 0.3, 0.2]

/-- The result dictionary built by `VisionService.detect_grid_advanced`
(and reused, with the same keys, as the orchestrator's `grid_info`).
`threshold_used` models the `detection_threshold_used` key (absent,
`none`, when it is never written). -/
structure GridResult where
  grid_detected : Bool
  pixels_per_mm : ℚ
  confidence : ℚ
  method_used : String
  quality_score : ℚ
  threshold_used : Option ℚ
  deriving DecidableEq, Repr

/-- The three main detector results, in the order
`detect_grid_advanced` iterates them. -/
def gridMethodResults (houghLines : Option (List (ℚ × ℚ)))
    (morphH morphV : List ℚ) (fw fh : ℕ) (hPeaks vPeaks : List ℕ)
    (grid_size_mm : ℚ) : List MethodResult :=
  [detect_grid_hough houghLines grid_size_mm,
   detect_grid_morphological morphH morphV grid_size_mm,
   detect_grid_frequency fw fh hPeaks vPeaks grid_size_mm]

/-- The acceptance endgame of `detect_grid_advanced`: accept the best
result at the first cleared threshold of the progressive list, otherwise
accept the relaxed detector's result against the 0.1 floor, otherwise
report no grid (the initial `results` dictionary). -/
def gridAccept (best : Option MethodResult × ℚ) (relaxed : MethodResult) :
    GridResult :=
  match gridThresholds.find? fun t => best.1.isSome && decide (best.2 > t) with
  | some t =>
    match best.1 with
    | some r =>
      ⟨true, r.pixels_per_mm, r.confidence, r.method_used, r.quality_score,
        some t⟩
    | none => ⟨false, 0, 0, "", 0, none⟩
  | none =>
    if relaxed.confidence > 0.1 then
      ⟨true, relaxed.pixels_per_mm, relaxed.confidence, relaxed.method_used,
        relaxed.quality_score, some 0.1⟩
    else ⟨false, 0, 0, "", 0, none⟩

/-- `VisionService.detect_grid_advanced`: pick the most confident of the
three detectors, then run the progressive-threshold acceptance. -/
def detect_grid_advanced (houghLines : Option (List (ℚ × ℚ)))
    (morphH morphV : List ℚ) (fw fh : ℕ) (hPeaks vPeaks : List ℕ)
    (relaxedLines : Option (List (ℚ × ℚ))) (grid_size_mm : ℚ) : GridResult :=
  gridAccept
    (pickBest MethodResult.confidence
      (gridMethodResults houghLines morphH morphV fw fh hPeaks vPeaks
        grid_size_mm))
    (detect_grid_relaxed relaxedLines grid_size_mm)

/-! ## Calibration helper (`CalibrationHelper`) -/

/-- Warning / suggestion strings.  Each constructor stands for one
Python format string of the source, carrying the interpolated value. -/
inductive Warning where
  | emergencyCalibration (pixels_per_mm : ℚ)
      -- 'Calibração de emergência: {x:.1f} pixels/mm'
  | alternativeCalibration (pixels_per_mm : ℚ)
      -- 'Usando calibração alternativa: {x:.1f} pixels/mm'
  | emergencyFallback (pixels_per_mm : ℚ)
      -- 'Usando calibração de emergência: {x:.1f} pixels/mm'
  | lowPixelsPerMm       -- 'Pixels/mm muito baixo - ...'
  | highPixelsPerMm      -- 'Pixels/mm muito alto - ...'
  | approachCamera       -- 'Aproxime a câmera do objeto'
  | moveCameraAway       -- 'Afaste a câmera do objeto'
  | sceneWidthUnusual (mm : ℚ)   -- 'Largura estimada da cena: ...'
  | sceneHeightUnusual (mm : ℚ)  -- 'Altura estimada da cena: ...'
  | biopsyNotDetected
      -- 'Biópsia não detectada automaticamente - calibração ainda disponível'
  deriving DecidableEq, Repr

/-- The dictionary returned by `CalibrationHelper.validate_calibration`. -/
structure Validation where
  valid : Bool
  confidence : ℚ
  warnings : List Warning
  suggestions : List Warning
  deriving DecidableEq, Repr

/-- `CalibrationHelper.validate_calibration`.  `width`/`height` are the
image dimensions. -/
def validate_calibration (pixels_per_mm : ℚ) (width height : ℕ) :
    Validation :=
  let rangeChecked : Validation :=
    if pixels_per_mm < 5 then
      ⟨false, 0, [.lowPixelsPerMm], [.approachCamera]⟩
    else if pixels_per_mm > 200 then
      ⟨false, 0, [.highPixelsPerMm], [.moveCameraAway]⟩
    else ⟨true, 0, [], []⟩
  let confidence : ℚ :=
    if 20 ≤ pixels_per_mm ∧ pixels_per_mm ≤ 80 then 1
    else
      let distance_from_optimal :=
        min |pixels_per_mm - 20| |pixels_per_mm - 80|
      max 0.1 (1 - distance_from_optimal / 50)
  -- Scene-size plausibility warnings.  The source divides by
  -- `pixels_per_mm` here unguarded; every call site passes a positive
  -- value (25/40/60 from `get_fallback_calibration`).
  let estimated_scene_width := (width : ℚ) / pixels_per_mm
  let estimated_scene_height := (height : ℚ) / pixels_per_mm
  let widthWarnings :=
    if estimated_scene_width < 50 ∨ estimated_scene_width > 500 then
      [Warning.sceneWidthUnusual estimated_scene_width]
    else []
  let heightWarnings :=
    if estimated_scene_height < 30 ∨ estimated_scene_height > 400 then
      [Warning.sceneHeightUnusual estimated_scene_height]
    else []
  { rangeChecked with
    confidence := confidence
    warnings := rangeChecked.warnings ++ widthWarnings ++ heightWarnings }

/-- One entry of the `strategies` list in `get_fallback_calibration`
(the per-strategy `validation` sub-dictionary is dropped: the returned
top-level dictionary never exposes it, and the orchestrator's
`fallback_cal.get('validation')` lookup therefore always misses). -/
structure Strategy where
  pixels_per_mm : ℚ
  method : String
  confidence : ℚ
  scenario : Option String
  deriving DecidableEq, Repr

/-- `CalibrationHelper.create_emergency_calibration` as a strategy:
assume the scene is 100–300 mm wide, keep the candidate ratio in the
plausible band [10, 100] closest to 40 px/mm (strict improvement on a
`reasonableness` score starting at 0), else the fixed constant 30. -/
def create_emergency_calibration (width : ℕ) : Strategy :=
  let typical_scene_widths : List ℚ := [100, 150, 200, 250, 300]
  let best :=
    typical_scene_widths.foldl
      (fun acc scene_width =>
        let pixels_per_mm := (width : ℚ) / scene_width
        if 10 ≤ pixels_per_mm ∧ pixels_per_mm ≤ 100 then
          let reasonableness := 1 - |pixels_per_mm - 40| / 40
          if reasonableness > acc.2 then (some pixels_per_mm, reasonableness)
          else acc
        else acc)
      ((none : Option ℚ), (0 : ℚ))
  let best_estimate := best.1.getD 30
  ⟨best_estimate, "emergency_estimation", 0.3, none⟩

/-- The dictionary returned by
`CalibrationHelper.get_fallback_calibration` (the `all_strategies`
diagnostic list is dropped; nothing downstream reads it). -/
structure FallbackCal where
  pixels_per_mm : ℚ
  method : String
  confidence : ℚ
  scenario : String
  warning : Warning
  deriving DecidableEq, Repr

/-- `CalibrationHelper.get_fallback_calibration`: the emergency strategy
plus three fixed typical scenarios scored by `validate_calibration`;
`max(strategies, key=confidence)` keeps the first strategy of maximal
confidence (strict-improvement scan from the first element). -/
def get_fallback_calibration (width height : ℕ) : FallbackCal :=
  let emergency_cal := create_emergency_calibration width
  let typical_calibrations : List (ℚ × String) :=
    [(25, "Vista ampla do microscópio"),
     (40, "Vista padrão de biópsia"),
     (60, "Vista aproximada")]
  let typed : List Strategy :=
    typical_calibrations.map fun cal =>
      ⟨cal.1, "typical_scenario",
        (validate_calibration cal.1 width height).confidence, some cal.2⟩
  let best_strategy :=
    typed.foldl
      (fun acc s => if s.confidence > acc.confidence then s else acc)
      emergency_cal
  { pixels_per_mm := best_strategy.pixels_per_mm
    method := best_strategy.method
    confidence := best_strategy.confidence
    scenario := best_strategy.scenario.getD "Calibração de emergência"
    warning := Warning.alternativeCalibration best_strategy.pixels_per_mm }

/-- `get_fallback_calibration` is a constant: the 25 px/mm typical
scenario always validates with confidence 1 (it lies in the optimal band
[20, 80]), strictly beating the emergency strategy's fixed 0.3, and the
later strategies only tie. -/
theorem get_fallback_calibration_const (width height : ℕ) :
    get_fallback_calibration width height =
      ⟨25, "typical_scenario", 1, "Vista ampla do microscópio",
        Warning.alternativeCalibration 25⟩ := by
  have h25 : (validate_calibration 25 width height).confidence = 1 := by
    norm_num [validate_calibration]
  have h40 : (validate_calibration 40 width height).confidence = 1 := by
    norm_num [validate_calibration]
  have h60 : (validate_calibration 60 width height).confidence = 1 := by
    norm_num [validate_calibration]
  have hem : (create_emergency_calibration width).confidence = 0.3 := rfl
  simp only [get_fallback_calibration, List.map_cons, List.map_nil,
    List.foldl_cons, List.foldl_nil, h25, h40, h60]
  norm_num [hem]

/-! ## Measurement engine (`VisionService.calculate_measurements`) -/

/-- `round(x, d)` on ℚ.  (Python rounds IEEE ties to even; Mathlib's
`round` rounds ties up.  The difference appears only at exact ties,
which no claim touches.) -/
def roundTo (d : ℕ) (x : ℚ) : ℚ := (round (x * 10 ^ d) : ℤ) / 10 ^ d

/-- The OpenCV geometry of one contour, crossing the library boundary:
`cv2.contourArea`, `cv2.arcLength(closed=True)`, `cv2.boundingRect`
width/height, `cv2.contourArea(cv2.convexHull(...))`, the two
`cv2.fitEllipse` axes and its angle, and the point count. -/
structure ContourGeom where
  nPoints : ℕ
  area_pixels : ℚ
  perimeter_pixels : ℚ
  bbox_w : ℚ
  bbox_h : ℚ
  hull_area : ℚ
  axis0 : ℚ
  axis1 : ℚ
  fit_angle : ℚ
  deriving DecidableEq, Repr

/-- The measurement dictionary built by `calculate_measurements`. -/
structure MeasRecord where
  area_mm2 : ℚ
  perimeter_mm : ℚ
  width_mm : ℚ
  height_mm : ℚ
  length_max_mm : ℚ
  width_max_mm : ℚ
  equivalent_diameter_mm : ℚ
  circularity : ℚ
  aspect_ratio : ℚ
  solidity : ℚ
  extent : ℚ
  roundness : ℚ
  compactness : ℚ
  angle_degrees : ℚ
  pixels_per_mm : ℚ
  area_pixels : ℤ
  perimeter_pixels : ℚ
  deriving DecidableEq, Repr

/-- The ellipse-or-bounding-box axes of `calculate_measurements`:
`cv2.fitEllipse` axes when the contour has at least 5 points, else the
bounding-box dimensions (major, minor, angle), already in mm. -/
def measurementAxes (g : ContourGeom) (pixels_per_mm : ℚ) : ℚ × ℚ × ℚ :=
  if 5 ≤ g.nPoints then
    (max g.axis0 g.axis1 / pixels_per_mm, min g.axis0 g.axis1 / pixels_per_mm,
      g.fit_angle)
  else
    let width_mm := g.bbox_w / pixels_per_mm
    let height_mm := g.bbox_h / pixels_per_mm
    (max width_mm height_mm, min width_mm height_mm, 0)

/-- `VisionService.calculate_measurements`.  `sqrtA` abstracts
`np.sqrt`; `none` models both an absent contour and the empty dictionary
returned for it, and a contour of zero points likewise yields `none`. -/
def calculate_measurements (sqrtA : ℚ → ℚ) (contour : Option ContourGeom)
    (pixels_per_mm : ℚ) : Option MeasRecord :=
  match contour with
  | none => none
  | some g =>
    if g.nPoints = 0 then none
    else
      let area_pixels := g.area_pixels
      let area_mm2 := area_pixels / pixels_per_mm ^ 2
      let perimeter_pixels := g.perimeter_pixels
      let perimeter_mm := perimeter_pixels / pixels_per_mm
      let width_mm := g.bbox_w / pixels_per_mm
      let height_mm := g.bbox_h / pixels_per_mm
      let axes := measurementAxes g pixels_per_mm
      let major_axis_mm := axes.1
      let minor_axis_mm := axes.2.1
      let angle := axes.2.2
      let circularity :=
        if perimeter_pixels > 0 then
          4 * piQ * area_pixels / perimeter_pixels ^ 2
        else 0
      let aspect_ratio :=
        if minor_axis_mm > 0 then major_axis_mm / minor_axis_mm else 1
      let solidity := if g.hull_area > 0 then area_pixels / g.hull_area else 0
      let extent :=
        if g.bbox_w * g.bbox_h > 0 then area_pixels / (g.bbox_w * g.bbox_h)
        else 0
      let equivalent_diameter := 2 * sqrtA (area_mm2 / piQ)
      let roundness :=
        if perimeter_pixels > 0 then
          4 * piQ * area_pixels / perimeter_pixels ^ 2
        else 0
      let compactness :=
        if perimeter_pixels > 0 then
          sqrtA (4 * area_pixels / piQ) / (perimeter_pixels / piQ)
        else 0
      some
        { area_mm2 := roundTo 2 area_mm2
          perimeter_mm := roundTo 2 perimeter_mm
          width_mm := roundTo 2 width_mm
          height_mm := roundTo 2 height_mm
          length_max_mm := roundTo 2 major_axis_mm
          width_max_mm := roundTo 2 minor_axis_mm
          equivalent_diameter_mm := roundTo 2 equivalent_diameter
          circularity := roundTo 3 circularity
          aspect_ratio := roundTo 2 aspect_ratio
          solidity := roundTo 3 solidity
          extent := roundTo 3 extent
          roundness := roundTo 3 roundness
          compactness := roundTo 3 compactness
          angle_degrees := roundTo 1 angle
          pixels_per_mm := roundTo 2 pixels_per_mm
          area_pixels := ⌊area_pixels⌋
          perimeter_pixels := roundTo 1 perimeter_pixels }

/-! ## Perspective correction (`PerspectiveCorrector`) -/

/-- The quality dictionary of
`PerspectiveCorrector.estimate_grid_quality` (the diagnostic
`total_lines` / `horizontal_lines` / `vertical_lines` counts and the
`reason` string are dropped; nothing downstream reads them). -/
structure QualityInfo where
  quality : ℚ
  needs_correction : Bool
  deriving DecidableEq, Repr

/-- `PerspectiveCorrector.estimate_grid_quality` over the detected Hough
line angles in degrees (`none` when `cv2.HoughLines` found no lines).
`cv2.HoughLines` returns either `None` or a nonempty array, so the
`some []` case (where the source would divide by a zero line count) is
unreachable. -/
def estimate_grid_quality (angles : Option (List ℚ)) : QualityInfo :=
  match angles with
  | none => ⟨0, true⟩
  | some as_ =>
    let horizontal_lines := (as_.filter fun a => a < 10 ∨ a > 170).length
    let vertical_lines := (as_.filter fun a => a > 80 ∧ a < 100).length
    let total_lines := as_.length
    let perpendicular_ratio :=
      ((horizontal_lines : ℚ) + (vertical_lines : ℚ)) / (total_lines : ℚ)
    let quality_score := perpendicular_ratio * 100
    ⟨quality_score, quality_score < 70⟩

/-- `PerspectiveCorrector.auto_correct_perspective`, parametrised over
the image type `α` and the OpenCV stages: `houghAngles` is the
edge-detection + `cv2.HoughLines` angle extraction feeding
`estimate_grid_quality`, `detectCorners` is `detect_grid_corners`
(`none` when fewer than 4 corner candidates exist), and `warp` is
`correct_perspective` (`none` models the caught exception path).
Returns the image and the `corrected` flag. -/
def auto_correct_perspective {α γ : Type} (houghAngles : α → Option (List ℚ))
    (detectCorners : α → Option γ) (warp : α → γ → Option α) (image : α) :
    α × Bool :=
  let quality_info := estimate_grid_quality (houghAngles image)
  if ¬ quality_info.needs_correction then (image, false)
  else
    match detectCorners image with
    | none => (image, false)
    | some corners =>
      match warp image corners with
      | none => (image, false)
      | some corrected_image =>
        let corrected_quality :=
          estimate_grid_quality (houghAngles corrected_image)
        if corrected_quality.quality > quality_info.quality then
          (corrected_image, true)
        else (image, false)

/-! ## Biopsy segmentation (`VisionService.segment_biopsy` and the four
strategies).  Each strategy receives the contour selected by its OpenCV
stages (`none` when no candidate survived) plus the quantities its
confidence formula reads, and performs the repository's arithmetic. -/

/-- One strategy result dictionary
`{'confidence': ..., 'contour': ..., 'method_used': ...}` (the `mask`
and `preprocessing_used` entries are dropped; no claim reads them). -/
structure SegCandidate where
  confidence : ℚ
  method_used : String
  contour : Option ContourGeom
  deriving DecidableEq, Repr

/-- `VisionService._segment_watershed` endgame: `largest` is the
contour of the biggest watershed label (if any), `total_area` the pixel
count of the image. -/
def segment_watershed (largest : Option ContourGeom) (total_area : ℚ) :
    SegCandidate :=
  match largest with
  | none => ⟨0, "watershed", none⟩
  | some g =>
    ⟨min 0.8 (g.area_pixels / (total_area * 0.1)), "watershed", some g⟩

/-- `VisionService._segment_adaptive_threshold` endgame: `largest` is
the largest contour inside the 0.5%–85% area band (if any). -/
def segment_adaptive_threshold (largest : Option ContourGeom) :
    SegCandidate :=
  match largest with
  | none => ⟨0, "adaptive_threshold", none⟩
  | some g =>
    let compactness :=
      if g.perimeter_pixels > 0 then
        4 * piQ * g.area_pixels / (g.perimeter_pixels * g.perimeter_pixels)
      else 0
    ⟨min 0.7 (compactness * 2), "adaptive_threshold", some g⟩

/-- `VisionService._segment_color_based` endgame: `isColorImage` is the
`len(original.shape) == 3` test, `largest` the largest HSV-mask contour
(if any). -/
def segment_color_based (isColorImage : Bool) (largest : Option ContourGeom)
    (total_area : ℚ) : SegCandidate :=
  if ¬ isColorImage then ⟨0, "color_based", none⟩
  else
    match largest with
    | none => ⟨0, "color_based", none⟩
    | some g =>
      if g.area_pixels > total_area * 0.01 ∧ g.area_pixels < total_area * 0.8
      then ⟨min 0.6 (g.area_pixels / (total_area * 0.2)), "color_based",
        some g⟩
      else ⟨0, "color_based", none⟩

/-- `VisionService._segment_edge_based` endgame: `largest` is the
largest filled region's contour (if any), `edge_sum` the summed Canny
edge intensity inside its mask. -/
def segment_edge_based (largest : Option ContourGeom)
    (total_area edge_sum : ℚ) : SegCandidate :=
  match largest with
  | none => ⟨0, "edge_based", none⟩
  | some g =>
    if g.area_pixels > total_area * 0.02 ∧ g.area_pixels < total_area * 0.7
    then
      let edge_strength :=
        if g.area_pixels > 0 then edge_sum / g.area_pixels else 0
      ⟨min 0.5 (edge_strength / 50), "edge_based", some g⟩
    else ⟨0, "edge_based", none⟩

/-- The segmentation result dictionary consumed by the orchestrator. -/
structure SegInfo where
  biopsy_detected : Bool
  confidence : ℚ
  method_used : String
  contour : Option ContourGeom
  deriving DecidableEq, Repr

/-- `VisionService.segment_biopsy`: scan every (strategy ×
preprocessing-variant) candidate keeping the strictly most confident
one, and accept it only above the 0.5 threshold; otherwise report the
initial not-detected dictionary. -/
def segment_biopsy (candidates : List SegCandidate) : SegInfo :=
  let best := pickBest SegCandidate.confidence candidates
  match best.1 with
  | some r =>
    if best.2 > 0.5 then ⟨true, r.confidence, r.method_used, r.contour⟩
    else ⟨false, 0, "", none⟩
  | none => ⟨false, 0, "", none⟩

/-! ## Analysis orchestrator (`VisionService.analyze_biopsy_complete`) -/

/-- Substring membership on character lists (Python's `in` operator for
strings), written out so it evaluates. -/
def charsMatchAt : List Char → List Char → Bool
  | [], _ => true
  | _ :: _, [] => false
  | a :: as_, b :: bs => a = b && charsMatchAt as_ bs

/-- Does `needle` occur contiguously inside `hay`? -/
def containsSub (needle : List Char) : List Char → Bool
  | [] => needle.isEmpty
  | b :: bs => charsMatchAt needle (b :: bs) || containsSub needle bs

/-- `'fallback' in method_used` — the orchestrator's test selecting
the 70/30 confidence blend. -/
def methodHasFallback (method_used : String) : Bool :=
  containsSub "fallback".data method_used.data

/-- The zero-valued measurement dictionary returned when no biopsy is
detected. -/
structure ManualMeas where
  area_mm2 : ℚ
  length_max_mm : ℚ
  width_max_mm : ℚ
  pixels_per_mm : ℚ
  calibration_available : Bool
  manual_measurement_possible : Bool
  deriving DecidableEq, Repr

/-- The three shapes of `result['measurements']`: the initial empty
dictionary, the zero-valued manual-measurement dictionary, or the
`calculate_measurements` output. -/
inductive MeasOut where
  | empty
  | manual (m : ManualMeas)
  | computed (m : MeasRecord)
  deriving DecidableEq, Repr

/-- The overlay image: calibration-text-only (no-biopsy branch, showing
the pixels-per-mm) or the full annotated overlay. -/
inductive Overlay where
  | calibrationOnly (pixels_per_mm : ℚ)
  | full
  deriving DecidableEq, Repr

/-- `result['biopsy_segmentation']`: the segmentation dictionary with
contour and mask stripped and `contour_points` added. -/
structure SegSummary where
  biopsy_detected : Bool
  confidence : ℚ
  method_used : String
  contour_points : ℕ
  deriving DecidableEq, Repr

/-- The `AnalysisResult` dictionary.  `usedGridDetector` is model
instrumentation recording whether the automatic `detect_grid_advanced`
result was consulted (`False` exactly on the manual-calibration path,
which returns before any detector runs). -/
structure AnalysisResult where
  success : Bool
  grid_detection : GridResult
  biopsy_segmentation : SegSummary
  measurements : MeasOut
  overlay : Overlay
  confidence_overall : ℚ
  errors : List Warning
  warnings : List Warning
  usedGridDetector : Bool
  deriving DecidableEq, Repr

/-- The grid stage of the orchestrator: manual calibration (confidence
0.9) if a `pixels_per_mm` key was supplied, else the automatic
detection result, else the calibration fallback with its warning.
Returns (grid_info, warnings recorded, detector-consulted flag). -/
def gridStage (width height : ℕ) (calibration_data : Option ℚ)
    (auto : GridResult) : GridResult × List Warning × Bool :=
  match calibration_data with
  | some ppm => (⟨true, ppm, 0.9, "manual_calibration", 0.9, none⟩, [], false)
  | none =>
    if auto.grid_detected then (auto, [], true)
    else
      let fallback_cal := get_fallback_calibration width height
      (⟨true, fallback_cal.pixels_per_mm, fallback_cal.confidence,
          fallback_cal.method, fallback_cal.confidence, none⟩,
        [fallback_cal.warning], true)

/-- `VisionService.analyze_biopsy_complete` on the no-exception paths:
`auto` is the value `detect_grid_advanced` returns for this image and
`seg` the value `segment_biopsy` returns (both parameters, since they
depend on the image through OpenCV); `grid_size_mm` is threaded to those
stages and otherwise unused, as in the source. -/
def analyze_biopsy_complete (sqrtA : ℚ → ℚ) (width height : ℕ)
    (_grid_size_mm : ℚ) (calibration_data : Option ℚ) (auto : GridResult)
    (seg : SegInfo) : AnalysisResult :=
  let stage := gridStage width height calibration_data auto
  let grid_info := stage.1
  let gridWarnings := stage.2.1
  let seg_summary : SegSummary :=
    ⟨seg.biopsy_detected, seg.confidence, seg.method_used,
      (seg.contour.map ContourGeom.nPoints).getD 0⟩
  if ¬ seg.biopsy_detected then
    { success := true
      grid_detection := grid_info
      biopsy_segmentation := seg_summary
      measurements :=
        MeasOut.manual ⟨0, 0, 0, grid_info.pixels_per_mm, true, true⟩
      overlay := Overlay.calibrationOnly grid_info.pixels_per_mm
      confidence_overall := grid_info.confidence * 0.5
      errors := []
      warnings := gridWarnings ++ [Warning.biopsyNotDetected]
      usedGridDetector := stage.2.2 }
  else
    let measurements :=
      calculate_measurements sqrtA seg.contour grid_info.pixels_per_mm
    let overall_confidence :=
      if methodHasFallback grid_info.method_used then
        grid_info.confidence * 0.7 + seg.confidence * 0.3
      else (grid_info.confidence + seg.confidence) / 2
    { success := true
      grid_detection := grid_info
      biopsy_segmentation := seg_summary
      measurements :=
        match measurements with
        | none => MeasOut.empty
        | some m => MeasOut.computed m
      overlay := Overlay.full
      confidence_overall := overall_confidence
      errors := []
      warnings := gridWarnings
      usedGridDetector := stage.2.2 }

/-! ## Supporting lemmas -/

theorem pickBest_foldl_cases {α : Type} (conf : α → ℚ) :
    ∀ (xs : List α) (acc : Option α × ℚ),
      xs.foldl (fun a r => if conf r > a.2 then (some r, conf r) else a) acc
          = acc ∨
        ∃ r ∈ xs,
          xs.foldl (fun a r => if conf r > a.2 then (some r, conf r) else a)
              acc
            = (some r, conf r) := by
  intro xs
  induction xs with
  | nil => intro acc; exact Or.inl rfl
  | cons x t ih =>
    intro acc
    rw [List.foldl_cons]
    rcases ih (if conf x > acc.2 then (some x, conf x) else acc) with h | h
    · rw [h]
      by_cases hx : conf x > acc.2
      · exact Or.inr ⟨x, by simp, by rw [if_pos hx]⟩
      · rw [if_neg hx]; exact Or.inl rfl
    · obtain ⟨r, hr, heq⟩ := h
      exact Or.inr ⟨r, by simp [hr], heq⟩

theorem pickBest_some {α : Type} (conf : α → ℚ) (xs : List α) (r : α)
    (h : (pickBest conf xs).1 = some r) :
    r ∈ xs ∧ (pickBest conf xs).2 = conf r := by
  rcases pickBest_foldl_cases conf xs (none, 0) with hc | hc
  · rw [pickBest] at h; rw [hc] at h; exact absurd h (by simp)
  · obtain ⟨s, hs, heq⟩ := hc
    rw [pickBest] at h ⊢
    rw [heq] at h ⊢
    cases h
    exact ⟨hs, rfl⟩

theorem pickBest_none {α : Type} (conf : α → ℚ) (xs : List α)
    (h : (pickBest conf xs).1 = none) : (pickBest conf xs).2 = 0 := by
  rcases pickBest_foldl_cases conf xs (none, 0) with hc | hc
  · rw [pickBest] at h ⊢; rw [hc]
  · obtain ⟨s, _, heq⟩ := hc
    rw [pickBest] at h; rw [heq] at h; exact absurd h (by simp)

theorem pickBest_isSome_of_pos {α : Type} (conf : α → ℚ) (xs : List α)
    (h : 0 < (pickBest conf xs).2) : (pickBest conf xs).1.isSome := by
  cases hx : (pickBest conf xs).1 with
  | none => rw [pickBest_none conf xs hx] at h; exact absurd h (by norm_num)
  | some r => rfl

theorem gridThresholds_find_isSome (b : Bool) (c : ℚ) :
    (gridThresholds.find? fun t => b && decide (c > t)).isSome ↔
      b = true ∧ 0.2 < c := by
  rw [List.find?_isSome]
  constructor
  · rintro ⟨t, ht, hp⟩
    simp only [Bool.and_eq_true, decide_eq_true_eq] at hp
    refine ⟨hp.1, ?_⟩
    have hmem : t = 0.7 ∨ t = 0.5 ∨ t = 0.3 ∨ t = 0.2 := by
      simpa [gridThresholds] using ht
    rcases hmem with h | h | h | h <;> subst h <;> linarith [hp.2]
  · rintro ⟨hb, hc⟩
    refine ⟨0.2, by simp [gridThresholds], ?_⟩
    simp only [Bool.and_eq_true, decide_eq_true_eq]
    exact ⟨hb, hc⟩

theorem length_filter_disjoint_le {α : Type} (p q : α → Bool)
    (h : ∀ a, ¬(p a = true ∧ q a = true)) (l : List α) :
    (l.filter p).length + (l.filter q).length ≤ l.length := by
  induction l with
  | nil => simp
  | cons a t ih =>
    by_cases hp : p a
    · have hq : q a = false := by
        cases hqv : q a
        · rfl
        · exact absurd ⟨hp, hqv⟩ (h a)
      simp only [List.filter_cons, hp, hq, if_pos, if_neg, Bool.false_eq_true,
        not_false_iff, List.length_cons]
      omega
    · by_cases hq : q a
      · simp only [List.filter_cons, hq, if_pos, hp, Bool.false_eq_true,
          if_neg, not_false_iff, List.length_cons]
        omega
      · simp only [List.filter_cons, hp, hq, Bool.false_eq_true, if_neg,
          not_false_iff, List.length_cons]
        omega

theorem roundTo_zero (d : ℕ) : roundTo d 0 = 0 := by
  simp [roundTo]

theorem roundTo_one (d : ℕ) : roundTo d 1 = 1 := by
  have h : ((10 : ℚ)) ^ d = ((10 ^ d : ℤ) : ℚ) := by push_cast; ring
  rw [roundTo, one_mul, h, round_intCast]
  exact div_self (by positivity)

theorem max_pos_of_not_both_zero {a b : ℚ} (ha : 0 ≤ a) (hb : 0 ≤ b)
    (h : ¬(a = 0 ∧ b = 0)) : 0 < max a b := by
  rcases ha.lt_or_eq with h' | h'
  · exact lt_of_lt_of_le h' (le_max_left a b)
  · push_neg at h
    rcases hb.lt_or_eq with h'' | h''
    · exact lt_of_lt_of_le h'' (le_max_right a b)
    · exact absurd h''.symm (h h'.symm)

theorem regularity_bounds {a b : ℚ} (ha : 0 ≤ a) (hb : 0 ≤ b)
    (hmax : 0 < max a b) :
    0 ≤ 1 - |a - b| / max a b ∧ 1 - |a - b| / max a b ≤ 1 := by
  have habs : |a - b| ≤ max a b := by
    rw [abs_sub_le_iff]
    constructor <;> [linarith [le_max_left a b]; linarith [le_max_right a b]]
  have h1 : |a - b| / max a b ≤ 1 := (div_le_one hmax).mpr habs
  have h0 : 0 ≤ |a - b| / max a b := div_nonneg (abs_nonneg _) hmax.le
  exact ⟨by linarith, by linarith⟩

theorem one_sub_min_bounds {x : ℚ} (hx : 0 ≤ x) :
    0 ≤ 1 - min 1 x ∧ 1 - min 1 x ≤ 1 := by
  have h1 : min 1 x ≤ 1 := min_le_left _ _
  have h0 : 0 ≤ min 1 x := le_min (by norm_num) hx
  exact ⟨by linarith, by linarith⟩

theorem detect_grid_hough_conf_bounds (lines : Option (List (ℚ × ℚ)))
    (gs : ℚ) :
    0 ≤ (detect_grid_hough lines gs).confidence ∧
      (detect_grid_hough lines gs).confidence ≤ 1 := by
  cases lines with
  | none => simp [detect_grid_hough]
  | some ls =>
    simp only [detect_grid_hough]
    set hs := meanSpacing (classifyLines 0.2 ls).1 with hhs
    set vs := meanSpacing (classifyLines 0.2 ls).2 with hvs
    by_cases h : 0 < hs ∧ 0 < vs
    · rw [if_pos h]
      have havg : 0 < (hs + vs) / 2 := by
        apply div_pos (by linarith [h.1, h.2]) (by norm_num)
      have hsa :=
        one_sub_min_bounds
          (x := |hs - (hs + vs) / 2| / ((hs + vs) / 2))
          (div_nonneg (abs_nonneg _) havg.le)
      have hreg :=
        regularity_bounds h.1.le h.2.le
          (lt_of_lt_of_le h.1 (le_max_left hs vs))
      have hlcf0 :
          0 ≤ min 1 ((((classifyLines 0.2 ls).1.length : ℚ) +
              ((classifyLines 0.2 ls).2.length : ℚ)) / 15) :=
        le_min (by norm_num) (by positivity)
      have hlcf1 :
          min 1 ((((classifyLines 0.2 ls).1.length : ℚ) +
              ((classifyLines 0.2 ls).2.length : ℚ)) / 15) ≤ 1 :=
        min_le_left _ _
      constructor
      · dsimp only
        nlinarith [hsa.1, hreg.1, hlcf0]
      · dsimp only
        nlinarith [hsa.2, hreg.2, hlcf1, hsa.1, hreg.1, hlcf0]
    · rw [if_neg h]; simp

theorem detect_grid_hough_ppm_pos (lines : Option (List (ℚ × ℚ))) (gs : ℚ)
    (hgs : 0 < gs) (hc : 0 < (detect_grid_hough lines gs).confidence) :
    0 < (detect_grid_hough lines gs).pixels_per_mm := by
  cases lines with
  | none => simp [detect_grid_hough] at hc
  | some ls =>
    simp only [detect_grid_hough] at hc ⊢
    set hs := meanSpacing (classifyLines 0.2 ls).1 with hhs
    set vs := meanSpacing (classifyLines 0.2 ls).2 with hvs
    by_cases h : 0 < hs ∧ 0 < vs
    · rw [if_pos h]
      dsimp only
      exact div_pos (div_pos (by linarith [h.1, h.2]) (by norm_num)) hgs
    · rw [if_neg h] at hc
      simp at hc

theorem detect_grid_morphological_isNaN_iff (hp vp : List ℚ) (gs : ℚ) :
    (detect_grid_morphological hp vp gs).confidence_isNaN = true ↔
      (2 < hp.length ∧ 2 < vp.length) ∧
        max (meanSpacing hp) (meanSpacing vp) = 0 := by
  simp only [detect_grid_morphological]
  by_cases hlen : 2 < hp.length ∧ 2 < vp.length
  · rw [if_pos hlen]
    by_cases hz : max (meanSpacing hp) (meanSpacing vp) = 0
    · rw [if_pos hz]
      simp [hlen, hz]
    · rw [if_neg hz]
      simp [hlen, hz]
  · rw [if_neg hlen]
    simp [hlen]

theorem detect_grid_morphological_nan_conf (hp vp : List ℚ) (gs : ℚ)
    (h : (detect_grid_morphological hp vp gs).confidence_isNaN = true) :
    (detect_grid_morphological hp vp gs).confidence = 0 := by
  simp only [detect_grid_morphological] at h ⊢
  by_cases hlen : 2 < hp.length ∧ 2 < vp.length
  · rw [if_pos hlen] at h ⊢
    by_cases hz : max (meanSpacing hp) (meanSpacing vp) = 0
    · rw [if_pos hz]
    · rw [if_neg hz] at h
      simp at h
  · rw [if_neg hlen] at h
    simp at h

theorem detect_grid_morphological_conf_bounds (hp vp : List ℚ) (gs : ℚ)
    (hnan : (detect_grid_morphological hp vp gs).confidence_isNaN = false) :
    0 ≤ (detect_grid_morphological hp vp gs).confidence ∧
      (detect_grid_morphological hp vp gs).confidence ≤ 1 := by
  simp only [detect_grid_morphological] at hnan ⊢
  set hs := meanSpacing hp with hhs
  set vs := meanSpacing vp with hvs
  by_cases hlen : 2 < hp.length ∧ 2 < vp.length
  · rw [if_pos hlen] at hnan ⊢
    by_cases hz : max hs vs = 0
    · rw [if_pos hz] at hnan
      simp at hnan
    · rw [if_neg hz]
      have hns : 0 ≤ hs := meanSpacing_nonneg hp
      have hnv : 0 ≤ vs := meanSpacing_nonneg vp
      have hmax : 0 < max hs vs :=
        lt_of_le_of_ne (le_trans hns (le_max_left hs vs)) (Ne.symm hz)
      have havg : 0 < (hs + vs) / 2 := by
        apply div_pos ?_ (by norm_num)
        rcases max_cases hs vs with ⟨he, _⟩ | ⟨he, _⟩ <;> rw [he] at hmax <;>
          linarith
      have hha :=
        one_sub_min_bounds (x := |hs - (hs + vs) / 2| / ((hs + vs) / 2))
          (div_nonneg (abs_nonneg _) havg.le)
      have hva :=
        one_sub_min_bounds (x := |vs - (hs + vs) / 2| / ((hs + vs) / 2))
          (div_nonneg (abs_nonneg _) havg.le)
      have hreg := regularity_bounds hns hnv hmax
      constructor
      · dsimp only
        nlinarith [hha.1, hva.1, hreg.1]
      · dsimp only
        nlinarith [hha.2, hva.2, hreg.2, hha.1, hva.1, hreg.1]
  · rw [if_neg hlen]; simp

theorem detect_grid_morphological_ppm_pos (hp vp : List ℚ) (gs : ℚ)
    (hgs : 0 < gs)
    (hc : 0 < (detect_grid_morphological hp vp gs).confidence) :
    0 < (detect_grid_morphological hp vp gs).pixels_per_mm := by
  simp only [detect_grid_morphological] at hc ⊢
  set hs := meanSpacing hp with hhs
  set vs := meanSpacing vp with hvs
  by_cases hlen : 2 < hp.length ∧ 2 < vp.length
  · rw [if_pos hlen] at hc ⊢
    by_cases hz : max hs vs = 0
    · rw [if_pos hz] at hc; simp at hc
    · rw [if_neg hz]
      have hns : 0 ≤ hs := meanSpacing_nonneg hp
      have hnv : 0 ≤ vs := meanSpacing_nonneg vp
      have hmax : 0 < max hs vs :=
        lt_of_le_of_ne (le_trans hns (le_max_left hs vs)) (Ne.symm hz)
      have hsum : 0 < hs + vs := by
        rcases max_cases hs vs with ⟨he, _⟩ | ⟨he, _⟩ <;> rw [he] at hmax <;>
          linarith
      dsimp only
      exact div_pos (div_pos hsum (by norm_num)) hgs
  · rw [if_neg hlen] at hc; simp at hc

theorem detect_grid_frequency_conf_bounds (w h : ℕ) (hp vp : List ℕ)
    (gs : ℚ) :
    0 ≤ (detect_grid_frequency w h hp vp gs).confidence ∧
      (detect_grid_frequency w h hp vp gs).confidence ≤ 1 := by
  simp only [detect_grid_frequency]
  by_cases hlen : 0 < hp.length ∧ 0 < vp.length
  · rw [if_pos hlen]
    by_cases hper :
        (0 : ℚ) < (if 0 < hp.foldr max 0 then
            (w : ℚ) / ((hp.foldr max 0 : ℕ) : ℚ) else 0) ∧
        (0 : ℚ) < (if 0 < vp.foldr max 0 then
            (h : ℚ) / ((vp.foldr max 0 : ℕ) : ℚ) else 0)
    · rw [if_pos hper]
      dsimp only
      constructor
      · exact le_min (by norm_num) (by positivity)
      · exact le_trans (min_le_left _ _) (by norm_num)
    · rw [if_neg hper]; simp
  · rw [if_neg hlen]; simp

theorem detect_grid_frequency_ppm_pos (w h : ℕ) (hp vp : List ℕ) (gs : ℚ)
    (hgs : 0 < gs)
    (hc : 0 < (detect_grid_frequency w h hp vp gs).confidence) :
    0 < (detect_grid_frequency w h hp vp gs).pixels_per_mm := by
  simp only [detect_grid_frequency] at hc ⊢
  by_cases hlen : 0 < hp.length ∧ 0 < vp.length
  · rw [if_pos hlen] at hc ⊢
    by_cases hper :
        (0 : ℚ) < (if 0 < hp.foldr max 0 then
            (w : ℚ) / ((hp.foldr max 0 : ℕ) : ℚ) else 0) ∧
        (0 : ℚ) < (if 0 < vp.foldr max 0 then
            (h : ℚ) / ((vp.foldr max 0 : ℕ) : ℚ) else 0)
    · rw [if_pos hper]
      dsimp only
      exact div_pos (div_pos (by linarith [hper.1, hper.2]) (by norm_num)) hgs
    · rw [if_neg hper] at hc; simp at hc
  · rw [if_neg hlen] at hc; simp at hc

theorem detect_grid_relaxed_conf_bounds (lines : Option (List (ℚ × ℚ)))
    (gs : ℚ) :
    0 ≤ (detect_grid_relaxed lines gs).confidence ∧
      (detect_grid_relaxed lines gs).confidence ≤ 1 := by
  cases lines with
  | none => simp [detect_grid_relaxed]
  | some ls =>
    simp only [detect_grid_relaxed]
    by_cases h4 : ls.length < 4
    · rw [if_pos h4]; simp
    · rw [if_neg h4]
      by_cases hlen :
          2 ≤ (classifyLines 0.4 ls).1.length ∧
            2 ≤ (classifyLines 0.4 ls).2.length
      · rw [if_pos hlen]
        by_cases hsp : 0 < meanSpacing (classifyLines 0.4 ls).1 ∧
            0 < meanSpacing (classifyLines 0.4 ls).2
        · rw [if_pos hsp]
          dsimp only
          constructor
          · exact le_min (by norm_num) (by positivity)
          · exact le_trans (min_le_left _ _) (by norm_num)
        · rw [if_neg hsp]; simp
      · rw [if_neg hlen]; simp

theorem detect_grid_relaxed_ppm_pos (lines : Option (List (ℚ × ℚ)))
    (gs : ℚ) (hgs : 0 < gs)
    (hc : 0 < (detect_grid_relaxed lines gs).confidence) :
    0 < (detect_grid_relaxed lines gs).pixels_per_mm := by
  cases lines with
  | none => simp [detect_grid_relaxed] at hc
  | some ls =>
    simp only [detect_grid_relaxed] at hc ⊢
    by_cases h4 : ls.length < 4
    · rw [if_pos h4] at hc; simp at hc
    · rw [if_neg h4] at hc ⊢
      by_cases hlen :
          2 ≤ (classifyLines 0.4 ls).1.length ∧
            2 ≤ (classifyLines 0.4 ls).2.length
      · rw [if_pos hlen] at hc ⊢
        by_cases hsp : 0 < meanSpacing (classifyLines 0.4 ls).1 ∧
            0 < meanSpacing (classifyLines 0.4 ls).2
        · rw [if_pos hsp]
          dsimp only
          exact div_pos
            (div_pos (by linarith [hsp.1, hsp.2]) (by norm_num)) hgs
        · rw [if_neg hsp] at hc; simp at hc
      · rw [if_neg hlen] at hc; simp at hc

theorem detect_grid_hough_not_nan (lines : Option (List (ℚ × ℚ)))
    (gs : ℚ) : (detect_grid_hough lines gs).confidence_isNaN = false := by
  cases lines with
  | none => rfl
  | some ls =>
    simp only [detect_grid_hough]
    split_ifs <;> rfl

theorem detect_grid_frequency_not_nan (w h : ℕ) (hp vp : List ℕ)
    (gs : ℚ) :
    (detect_grid_frequency w h hp vp gs).confidence_isNaN = false := by
  simp only [detect_grid_frequency]
  split_ifs <;> rfl

theorem detect_grid_relaxed_not_nan (lines : Option (List (ℚ × ℚ)))
    (gs : ℚ) : (detect_grid_relaxed lines gs).confidence_isNaN = false := by
  cases lines with
  | none => rfl
  | some ls =>
    simp only [detect_grid_relaxed]
    split_ifs <;> rfl

theorem pickBest_foldl_snd_nonneg {α : Type} (conf : α → ℚ) :
    ∀ (xs : List α) (acc : Option α × ℚ), 0 ≤ acc.2 →
      0 ≤ (xs.foldl (fun a r => if conf r > a.2 then (some r, conf r) else a)
        acc).2 := by
  intro xs
  induction xs with
  | nil => intro acc h; simpa using h
  | cons x t ih =>
    intro acc h
    rw [List.foldl_cons]
    apply ih
    by_cases hx : conf x > acc.2
    · rw [if_pos hx]
      dsimp only
      linarith
    · rw [if_neg hx]
      exact h

/-- The running best confidence of the selection scan never goes below
its initial 0 — this is what makes a stored 0 interchangeable with the
source's NaN in the strict comparison (both fail `> best_confidence`). -/
theorem pickBest_snd_nonneg {α : Type} (conf : α → ℚ) (xs : List α) :
    0 ≤ (pickBest conf xs).2 :=
  pickBest_foldl_snd_nonneg conf xs (none, 0) (le_refl 0)

theorem piQ_pos : 0 < piQ := by norm_num [piQ]

theorem segment_watershed_conf_bounds (g : ContourGeom) (total : ℚ)
    (harea : 0 ≤ g.area_pixels) (htotal : 0 < total) :
    0 ≤ (segment_watershed (some g) total).confidence ∧
      (segment_watershed (some g) total).confidence ≤ 1 := by
  simp only [segment_watershed]
  constructor
  · exact le_min (by norm_num)
      (div_nonneg harea (by nlinarith))
  · exact le_trans (min_le_left _ _) (by norm_num)

theorem segment_adaptive_conf_bounds (g : ContourGeom)
    (harea : 0 ≤ g.area_pixels) :
    0 ≤ (segment_adaptive_threshold (some g)).confidence ∧
      (segment_adaptive_threshold (some g)).confidence ≤ 1 := by
  simp only [segment_adaptive_threshold]
  have hcomp :
      0 ≤ (if g.perimeter_pixels > 0 then
        4 * piQ * g.area_pixels /
          (g.perimeter_pixels * g.perimeter_pixels)
      else 0) := by
    split
    · apply div_nonneg
      · nlinarith [piQ_pos]
      · nlinarith
    · exact le_refl 0
  constructor
  · exact le_min (by norm_num) (by nlinarith)
  · exact le_trans (min_le_left _ _) (by norm_num)

theorem segment_color_conf_bounds (isC : Bool) (largest : Option ContourGeom)
    (total : ℚ) :
    0 ≤ (segment_color_based isC largest total).confidence ∧
      (segment_color_based isC largest total).confidence ≤ 1 := by
  cases isC with
  | false => simp [segment_color_based]
  | true =>
    cases largest with
    | none => simp [segment_color_based]
    | some g =>
      by_cases hband :
          g.area_pixels > total * 0.01 ∧ g.area_pixels < total * 0.8
      · have hres : segment_color_based true (some g) total =
            ⟨min 0.6 (g.area_pixels / (total * 0.2)), "color_based",
              some g⟩ := by
          simp [segment_color_based, hband]
        rw [hres]
        have htotal : 0 < total := by nlinarith [hband.1, hband.2]
        have harea : 0 < g.area_pixels := by nlinarith [hband.1]
        constructor
        · exact le_min (by norm_num) (div_nonneg harea.le (by nlinarith))
        · exact le_trans (min_le_left _ _) (by norm_num)
      · have hres : segment_color_based true (some g) total =
            ⟨0, "color_based", none⟩ := by
          simp [segment_color_based, hband]
        rw [hres]
        simp

theorem segment_edge_conf_bounds (largest : Option ContourGeom)
    (total edge_sum : ℚ) (hesum : 0 ≤ edge_sum) :
    0 ≤ (segment_edge_based largest total edge_sum).confidence ∧
      (segment_edge_based largest total edge_sum).confidence ≤ 1 := by
  cases largest with
  | none => simp [segment_edge_based]
  | some g =>
    simp only [segment_edge_based]
    by_cases hband :
        g.area_pixels > total * 0.02 ∧ g.area_pixels < total * 0.7
    · rw [if_pos hband]
      have hstr :
          0 ≤ (if g.area_pixels > 0 then edge_sum / g.area_pixels else 0) := by
        split
        · exact div_nonneg hesum (by linarith)
        · exact le_refl 0
      constructor
      · exact le_min (by norm_num) (by linarith [hstr])
      · exact le_trans (min_le_left _ _) (by norm_num)
    · rw [if_neg hband]; simp

theorem validate_calibration_conf_bounds (ppm : ℚ) (w h : ℕ) :
    0 ≤ (validate_calibration ppm w h).confidence ∧
      (validate_calibration ppm w h).confidence ≤ 1 := by
  simp only [validate_calibration]
  by_cases hopt : 20 ≤ ppm ∧ ppm ≤ 80
  · rw [if_pos hopt]; norm_num
  · rw [if_neg hopt]
    have hd : 0 ≤ min |ppm - 20| |ppm - 80| :=
      le_min (abs_nonneg _) (abs_nonneg _)
    constructor
    · exact le_trans (by norm_num) (le_max_left 0.1 _)
    · apply max_le (by norm_num)
      have : 0 ≤ min |ppm - 20| |ppm - 80| / 50 := by positivity
      linarith

theorem estimate_grid_quality_some_bounds (angles : List ℚ)
    (hne : angles ≠ []) :
    0 ≤ (estimate_grid_quality (some angles)).quality ∧
      (estimate_grid_quality (some angles)).quality ≤ 100 := by
  have hdisj :
      ∀ a : ℚ, ¬((decide (a < 10 ∨ a > 170)) = true ∧
        (decide (a > 80 ∧ a < 100)) = true) := by
    intro a
    simp only [decide_eq_true_eq]
    rintro ⟨h1 | h1, h2, h3⟩ <;> linarith
  have hlen :=
    length_filter_disjoint_le (fun a : ℚ => decide (a < 10 ∨ a > 170))
      (fun a : ℚ => decide (a > 80 ∧ a < 100)) hdisj angles
  have htotal : 0 < (angles.length : ℚ) := by
    have := List.length_pos.mpr hne
    exact_mod_cast this
  have hq : (estimate_grid_quality (some angles)).quality =
      (((angles.filter fun a : ℚ => a < 10 ∨ a > 170).length : ℚ) +
          ((angles.filter fun a : ℚ => a > 80 ∧ a < 100).length : ℚ)) /
        (angles.length : ℚ) * 100 := rfl
  rw [hq]
  have hsum :
      ((angles.filter fun a : ℚ => a < 10 ∨ a > 170).length : ℚ) +
          ((angles.filter fun a : ℚ => a > 80 ∧ a < 100).length : ℚ) ≤
        (angles.length : ℚ) := by
    exact_mod_cast hlen
  have hsum0 :
      0 ≤ ((angles.filter fun a : ℚ => a < 10 ∨ a > 170).length : ℚ) +
        ((angles.filter fun a : ℚ => a > 80 ∧ a < 100).length : ℚ) := by
    positivity
  have hfrac : (((angles.filter fun a : ℚ => a < 10 ∨ a > 170).length : ℚ) +
          ((angles.filter fun a : ℚ => a > 80 ∧ a < 100).length : ℚ)) /
        (angles.length : ℚ) ≤ 1 :=
    (div_le_one htotal).mpr hsum
  have hfrac0 :
      0 ≤ (((angles.filter fun a : ℚ => a < 10 ∨ a > 170).length : ℚ) +
          ((angles.filter fun a : ℚ => a > 80 ∧ a < 100).length : ℚ)) /
        (angles.length : ℚ) := div_nonneg hsum0 htotal.le
  constructor
  · nlinarith
  · nlinarith

theorem gridAccept_accept (b : Option MethodResult × ℚ)
    (relaxed r : MethodResult) (hr : b.1 = some r) (h2 : 0.2 < b.2) :
    ∃ t, gridAccept b relaxed =
      ⟨true, r.pixels_per_mm, r.confidence, r.method_used, r.quality_score,
        some t⟩ := by
  have hfs : (gridThresholds.find? fun t =>
      b.1.isSome && decide (b.2 > t)).isSome :=
    (gridThresholds_find_isSome _ _).mpr ⟨by rw [hr]; rfl, h2⟩
  obtain ⟨t, hfind⟩ := Option.isSome_iff_exists.mp hfs
  refine ⟨t, ?_⟩
  unfold gridAccept
  rw [hfind, hr]

theorem gridAccept_no_main (b : Option MethodResult × ℚ)
    (relaxed : MethodResult) (h2 : ¬ 0.2 < b.2) :
    gridAccept b relaxed =
      (if relaxed.confidence > 0.1 then
        ⟨true, relaxed.pixels_per_mm, relaxed.confidence,
          relaxed.method_used, relaxed.quality_score, some 0.1⟩
      else ⟨false, 0, 0, "", 0, none⟩) := by
  have hfind : (gridThresholds.find? fun t =>
      b.1.isSome && decide (b.2 > t)) = none := by
    rw [← Option.not_isSome_iff_eq_none, gridThresholds_find_isSome]
    rintro ⟨-, hgt⟩
    exact h2 hgt
  unfold gridAccept
  rw [hfind]

theorem detect_grid_relaxed_method (lines : Option (List (ℚ × ℚ)))
    (gs : ℚ) :
    (detect_grid_relaxed lines gs).method_used = "relaxed_fallback" := by
  cases lines with
  | none => rfl
  | some ls =>
    simp only [detect_grid_relaxed]
    split
    · rfl
    · split
      · split
        · rfl
        · rfl
      · rfl

/-! ## Claim theorems -/

/-- C3: for every input image, `auto_correct_perspective` either returns
the original image unchanged with `corrected = false`, or returns a
perspective-corrected image whose quality score, recomputed by
`estimate_grid_quality`, is strictly greater than the original image's
quality score; it never returns a corrected image whose quality is lower
than or equal to the original's. -/
theorem c3_auto_correct_perspective_monotone {α γ : Type}
    (houghAngles : α → Option (List ℚ)) (detectCorners : α → Option γ)
    (warp : α → γ → Option α) (image : α) :
    ((auto_correct_perspective houghAngles detectCorners warp image).2 =
          false ∧
        (auto_correct_perspective houghAngles detectCorners warp image).1 =
          image) ∨
      ((auto_correct_perspective houghAngles detectCorners warp image).2 =
          true ∧
        (estimate_grid_quality (houghAngles image)).quality <
          (estimate_grid_quality (houghAngles
            (auto_correct_perspective houghAngles detectCorners warp
              image).1)).quality) := by
  by_cases hq : (estimate_grid_quality (houghAngles image)).needs_correction
  · rcases hdc : detectCorners image with _ | corners
    · exact Or.inl ⟨by simp [auto_correct_perspective, hq, hdc],
        by simp [auto_correct_perspective, hq, hdc]⟩
    · rcases hw : warp image corners with _ | corrected
      · exact Or.inl ⟨by simp [auto_correct_perspective, hq, hdc, hw],
          by simp [auto_correct_perspective, hq, hdc, hw]⟩
      · by_cases hcq :
            (estimate_grid_quality (houghAngles corrected)).quality >
              (estimate_grid_quality (houghAngles image)).quality
        · refine Or.inr ⟨by simp [auto_correct_perspective, hq, hdc, hw, hcq],
            ?_⟩
          have h1 : (auto_correct_perspective houghAngles detectCorners warp
              image).1 = corrected := by
            simp [auto_correct_perspective, hq, hdc, hw, hcq]
          rw [h1]
          exact hcq
        · exact Or.inl
            ⟨by simp [auto_correct_perspective, hq, hdc, hw, hcq],
              by simp [auto_correct_perspective, hq, hdc, hw, hcq]⟩
  · exact Or.inl ⟨by simp [auto_correct_perspective, hq],
      by simp [auto_correct_perspective, hq]⟩

/-- C5 counterexample: the claim says the pixels-per-mm returned by
`get_fallback_calibration` is derived from the 100–300 mm scene-width
heuristic (closest to 40 px/mm in the band [10, 100], else the fixed
constant).  For an 800×600 image that heuristic (computed by
`create_emergency_calibration`) yields the fixed constant 30, but
`get_fallback_calibration` returns 25. -/
theorem c5_counterexample :
    (get_fallback_calibration 800 600).pixels_per_mm = 25 ∧
      (create_emergency_calibration 800).pixels_per_mm = 30 ∧
      (25 : ℚ) ≠ 30 := by
  refine ⟨?_, by norm_num [create_emergency_calibration], by norm_num⟩
  rw [get_fallback_calibration_const]

/-- C5 amended: `get_fallback_calibration` returns pixels_per_mm 25,
method "typical_scenario" and confidence 1 for every image: the first
typical scenario (25 px/mm) always validates with confidence 1.0,
strictly beating the emergency strategy's fixed confidence 0.3, and
later ties do not replace it.  The 100–300 mm closest-to-40 width
heuristic is computed only by `create_emergency_calibration` (method
"emergency_estimation", confidence 0.3), whose strategy never wins the
selection. -/
theorem c5_fallback_always_typical_25 (width height : ℕ) :
    (get_fallback_calibration width height).pixels_per_mm = 25 ∧
      (get_fallback_calibration width height).method = "typical_scenario" ∧
      (get_fallback_calibration width height).confidence = 1 ∧
      (create_emergency_calibration width).method = "emergency_estimation" ∧
      (create_emergency_calibration width).confidence = 0.3 := by
  rw [get_fallback_calibration_const]
  exact ⟨rfl, rfl, rfl, rfl, rfl⟩

/-- C7: if calibration data with a `pixels_per_mm` value is supplied to
`analyze_biopsy_complete`, the grid stage reports `grid_detected = true`
with confidence exactly 0.9 and method "manual_calibration", the
automatic detector is never consulted, and the result is independent of
whatever `detect_grid_advanced` would have returned for the image (even
one containing a detectable grid). -/
theorem c7_manual_calibration_override (width height : ℕ) (gs p : ℚ)
    (sqrtA : ℚ → ℚ) (auto auto' : GridResult) (seg : SegInfo) :
    (analyze_biopsy_complete sqrtA width height gs (some p) auto
        seg).grid_detection =
      ⟨true, p, 0.9, "manual_calibration", 0.9, none⟩ ∧
    (analyze_biopsy_complete sqrtA width height gs (some p) auto
        seg).usedGridDetector = false ∧
    analyze_biopsy_complete sqrtA width height gs (some p) auto seg =
      analyze_biopsy_complete sqrtA width height gs (some p) auto' seg := by
  refine ⟨?_, ?_, ?_⟩ <;>
    cases hs : seg.biopsy_detected <;>
      simp [analyze_biopsy_complete, gridStage, hs]

/-- C1: for every input, failure of grid detection and/or biopsy
segmentation alone never makes `analyze_biopsy_complete` return
`success = false`: the result's `success` is `true` on every
no-exception path; when no grid is detected the orchestrator substitutes
the fallback calibration and records its warning; and when no sample is
segmented it still returns `success = true` with zero-valued
measurements (`area_mm2`, `length_max_mm`, `width_max_mm` all 0), a
`manual_measurement_possible` flag, a non-empty warnings list, and a
calibration-only overlay. -/
theorem c1_graceful_degradation (width height : ℕ) (gs : ℚ)
    (sqrtA : ℚ → ℚ) (auto : GridResult) (seg : SegInfo) :
    (analyze_biopsy_complete sqrtA width height gs none auto seg).success =
      true ∧
    (auto.grid_detected = false →
      (analyze_biopsy_complete sqrtA width height gs none auto
          seg).grid_detection.grid_detected = true ∧
      (analyze_biopsy_complete sqrtA width height gs none auto
          seg).grid_detection.pixels_per_mm =
        (get_fallback_calibration width height).pixels_per_mm ∧
      (get_fallback_calibration width height).warning ∈
        (analyze_biopsy_complete sqrtA width height gs none auto
          seg).warnings) ∧
    (seg.biopsy_detected = false →
      (analyze_biopsy_complete sqrtA width height gs none auto
          seg).measurements =
        MeasOut.manual ⟨0, 0, 0,
          (analyze_biopsy_complete sqrtA width height gs none auto
            seg).grid_detection.pixels_per_mm, true, true⟩ ∧
      (analyze_biopsy_complete sqrtA width height gs none auto
          seg).overlay =
        Overlay.calibrationOnly
          ((analyze_biopsy_complete sqrtA width height gs none auto
            seg).grid_detection.pixels_per_mm) ∧
      (analyze_biopsy_complete sqrtA width height gs none auto
          seg).warnings ≠ []) := by
  refine ⟨?_, ?_, ?_⟩
  · cases hs : seg.biopsy_detected <;>
      simp [analyze_biopsy_complete, gridStage, hs]
  · intro hauto
    refine ⟨?_, ?_, ?_⟩ <;>
      cases hs : seg.biopsy_detected <;>
        simp [analyze_biopsy_complete, gridStage, hauto, hs]
  · intro hseg
    refine ⟨?_, ?_, ?_⟩ <;>
      cases hauto : auto.grid_detected <;>
        simp [analyze_biopsy_complete, gridStage, hauto, hseg]

/-- C2 counterexample: the claim asserts `grid_detected = true ⇒
pixels_per_mm > 0` also for grid estimates produced by manual
calibration, but the orchestrator copies a supplied `pixels_per_mm`
unchecked: supplying 0 yields `grid_detected = true` with
`pixels_per_mm = 0`. -/
theorem c2_counterexample :
    (analyze_biopsy_complete (fun _ => 0) 640 480 10 (some 0)
        ⟨false, 0, 0, "", 0, none⟩
        ⟨false, 0, "", none⟩).grid_detection.grid_detected = true ∧
    ¬ (0 < (analyze_biopsy_complete (fun _ => 0) 640 480 10 (some 0)
        ⟨false, 0, 0, "", 0, none⟩
        ⟨false, 0, "", none⟩).grid_detection.pixels_per_mm) := by
  constructor
  · simp [analyze_biopsy_complete, gridStage]
  · have h : (analyze_biopsy_complete (fun _ => 0) 640 480 10 (some 0)
        ⟨false, 0, 0, "", 0, none⟩
        ⟨false, 0, "", none⟩).grid_detection.pixels_per_mm = 0 := by
      simp [analyze_biopsy_complete, gridStage]
    rw [h]
    norm_num

/-- C2 amended: grid estimates produced by `detect_grid_advanced` and by
the orchestrator's calibration-fallback path satisfy
`grid_detected = true ⇒ pixels_per_mm > 0` whenever the configured
`grid_size_mm` is positive; the manual-calibration path copies the
supplied `pixels_per_mm` unchecked, so there positivity holds only under
the extra assumption that the supplied value is positive. -/
theorem c2_scale_positivity (hl rl : Option (List (ℚ × ℚ)))
    (mh mv : List ℚ) (fw fh width height : ℕ) (hp vp : List ℕ)
    (gs p : ℚ) (sqrtA : ℚ → ℚ) (auto : GridResult) (seg : SegInfo)
    (hgs : 0 < gs) :
    ((detect_grid_advanced hl mh mv fw fh hp vp rl gs).grid_detected =
        true →
      0 < (detect_grid_advanced hl mh mv fw fh hp vp rl gs).pixels_per_mm) ∧
    (0 < (get_fallback_calibration width height).pixels_per_mm) ∧
    (auto.grid_detected = false →
      0 < (analyze_biopsy_complete sqrtA width height gs none auto
        seg).grid_detection.pixels_per_mm) ∧
    (0 < p →
      0 < (analyze_biopsy_complete sqrtA width height gs (some p) auto
        seg).grid_detection.pixels_per_mm) := by
  refine ⟨?_, ?_, ?_, ?_⟩
  · intro hdet
    by_cases h2 : 0.2 < (pickBest MethodResult.confidence
        (gridMethodResults hl mh mv fw fh hp vp gs)).2
    · have hsome := pickBest_isSome_of_pos MethodResult.confidence
        (gridMethodResults hl mh mv fw fh hp vp gs)
        (lt_trans (by norm_num) h2)
      obtain ⟨r, hr⟩ := Option.isSome_iff_exists.mp hsome
      obtain ⟨hmem, hconf⟩ := pickBest_some _ _ _ hr
      obtain ⟨t, heq⟩ :=
        gridAccept_accept _ (detect_grid_relaxed rl gs) r hr h2
      have hD : detect_grid_advanced hl mh mv fw fh hp vp rl gs =
          gridAccept (pickBest MethodResult.confidence
            (gridMethodResults hl mh mv fw fh hp vp gs))
            (detect_grid_relaxed rl gs) := rfl
      rw [hD, heq]
      rw [hconf] at h2
      have hcpos : 0 < r.confidence := lt_trans (by norm_num) h2
      have hmem' : r = detect_grid_hough hl gs ∨
          r = detect_grid_morphological mh mv gs ∨
          r = detect_grid_frequency fw fh hp vp gs := by
        simpa [gridMethodResults] using hmem
      rcases hmem' with h | h | h <;> subst h
      · exact detect_grid_hough_ppm_pos hl gs hgs hcpos
      · exact detect_grid_morphological_ppm_pos mh mv gs hgs hcpos
      · exact detect_grid_frequency_ppm_pos fw fh hp vp gs hgs hcpos
    · have hD : detect_grid_advanced hl mh mv fw fh hp vp rl gs =
          gridAccept (pickBest MethodResult.confidence
            (gridMethodResults hl mh mv fw fh hp vp gs))
            (detect_grid_relaxed rl gs) := rfl
      rw [hD, gridAccept_no_main _ _ h2] at hdet ⊢
      by_cases hrel : (detect_grid_relaxed rl gs).confidence > 0.1
      · rw [if_pos hrel] at hdet ⊢
        exact detect_grid_relaxed_ppm_pos rl gs hgs
          (lt_trans (by norm_num) hrel)
      · rw [if_neg hrel] at hdet
        simp at hdet
  · rw [get_fallback_calibration_const]
    norm_num
  · intro hauto
    cases hs : seg.biopsy_detected <;>
      simp [analyze_biopsy_complete, gridStage, hauto, hs,
        get_fallback_calibration_const]
  · intro hp0
    cases hs : seg.biopsy_detected <;>
      simp [analyze_biopsy_complete, gridStage, hs, hp0]

/-- C6 counterexample: the claim says the 70/30 grid-weighted blend is
used whenever a fallback calibration method supplied the scale.  But the
orchestrator tests `'fallback' in method_used`, and the calibration
fallback's method is `"typical_scenario"` (no such substring): with grid
confidence 1 (the fallback's) and segmentation confidence 3/5 the result
is the plain mean 4/5, not the 70/30 blend 0.88. -/
theorem c6_counterexample :
    (analyze_biopsy_complete (fun _ => 0) 800 600 10 none
        ⟨false, 0, 0, "", 0, none⟩
        ⟨true, 3/5, "watershed", none⟩).grid_detection.method_used =
      "typical_scenario" ∧
    (analyze_biopsy_complete (fun _ => 0) 800 600 10 none
        ⟨false, 0, 0, "", 0, none⟩
        ⟨true, 3/5, "watershed", none⟩).confidence_overall = 4/5 ∧
    (4/5 : ℚ) ≠ 1 * 0.7 + (3/5) * 0.3 := by
  have hf : methodHasFallback "typical_scenario" = false := by decide
  refine ⟨?_, ?_, by norm_num⟩
  · simp [analyze_biopsy_complete, gridStage, get_fallback_calibration_const]
  · simp [analyze_biopsy_complete, gridStage, get_fallback_calibration_const,
      hf]
    norm_num

/-- C6 amended: when both a grid estimate and a segmented contour are
obtained, `confidence_overall` is the 70/30 grid-weighted blend exactly
when the grid method string contains `"fallback"` as a substring — true
of the relaxed-fallback detector and the emergency exception path, but
false of the calibration fallback's methods `"typical_scenario"` and
`"emergency_estimation"` — and the plain mean otherwise; in particular,
when the calibration fallback supplies the scale the plain mean is
used. -/
theorem c6_confidence_aggregation (width height : ℕ) (gs : ℚ)
    (sqrtA : ℚ → ℚ) (auto : GridResult) (seg : SegInfo)
    (hseg : seg.biopsy_detected = true) :
    (methodHasFallback "relaxed_fallback" = true ∧
      methodHasFallback "emergency_fallback" = true ∧
      methodHasFallback "typical_scenario" = false ∧
      methodHasFallback "emergency_estimation" = false ∧
      methodHasFallback "manual_calibration" = false) ∧
    (auto.grid_detected = true →
      (analyze_biopsy_complete sqrtA width height gs none auto
          seg).confidence_overall =
        (if methodHasFallback auto.method_used then
          auto.confidence * 0.7 + seg.confidence * 0.3
        else (auto.confidence + seg.confidence) / 2)) ∧
    (auto.grid_detected = false →
      (analyze_biopsy_complete sqrtA width height gs none auto
          seg).confidence_overall =
        ((get_fallback_calibration width height).confidence +
          seg.confidence) / 2) := by
  refine ⟨⟨by decide, by decide, by decide, by decide, by decide⟩, ?_, ?_⟩
  · intro hauto
    simp [analyze_biopsy_complete, gridStage, hauto, hseg]
  · intro hauto
    have hf : methodHasFallback "typical_scenario" = false := by decide
    simp [analyze_biopsy_complete, gridStage, hauto, hseg,
      get_fallback_calibration_const, hf]

/-- C8: `detect_grid_advanced` accepts the highest-confidence detector
result exactly when that confidence clears one of the thresholds
{0.7, 0.5, 0.3, 0.2} — equivalently, when it exceeds 0.2 — so threshold
acceptance is monotone in confidence (a result is never rejected for
having higher confidence than necessary); when no detector clears 0.2,
the relaxed-fallback result is accepted if and only if its confidence
exceeds the 0.1 floor. -/
theorem c8_threshold_acceptance (hl rl : Option (List (ℚ × ℚ)))
    (mh mv : List ℚ) (fw fh : ℕ) (hp vp : List ℕ) (gs : ℚ) :
    ((detect_grid_advanced hl mh mv fw fh hp vp rl gs).grid_detected =
        true ↔
      0.2 < (pickBest MethodResult.confidence
          (gridMethodResults hl mh mv fw fh hp vp gs)).2 ∨
        0.1 < (detect_grid_relaxed rl gs).confidence) ∧
    (∀ c : ℚ, (∃ t ∈ gridThresholds, t < c) ↔ 0.2 < c) ∧
    (∀ c c' : ℚ, c ≤ c' → (∃ t ∈ gridThresholds, t < c) →
      ∃ t ∈ gridThresholds, t < c') ∧
    (0.2 < (pickBest MethodResult.confidence
        (gridMethodResults hl mh mv fw fh hp vp gs)).2 →
      (detect_grid_advanced hl mh mv fw fh hp vp rl gs).grid_detected =
        true ∧
      (detect_grid_advanced hl mh mv fw fh hp vp rl gs).confidence =
        (pickBest MethodResult.confidence
          (gridMethodResults hl mh mv fw fh hp vp gs)).2) ∧
    (¬ 0.2 < (pickBest MethodResult.confidence
        (gridMethodResults hl mh mv fw fh hp vp gs)).2 →
      ((detect_grid_advanced hl mh mv fw fh hp vp rl gs).grid_detected =
          true ↔
        0.1 < (detect_grid_relaxed rl gs).confidence) ∧
      (0.1 < (detect_grid_relaxed rl gs).confidence →
        (detect_grid_advanced hl mh mv fw fh hp vp rl gs).method_used =
          "relaxed_fallback")) := by
  have hD : detect_grid_advanced hl mh mv fw fh hp vp rl gs =
      gridAccept (pickBest MethodResult.confidence
        (gridMethodResults hl mh mv fw fh hp vp gs))
        (detect_grid_relaxed rl gs) := rfl
  refine ⟨?_, ?_, ?_, ?_, ?_⟩
  · by_cases h2 : 0.2 < (pickBest MethodResult.confidence
        (gridMethodResults hl mh mv fw fh hp vp gs)).2
    · constructor
      · intro _
        exact Or.inl h2
      · intro _
        obtain ⟨r, hr⟩ := Option.isSome_iff_exists.mp
          (pickBest_isSome_of_pos _ _ (lt_trans (by norm_num) h2))
        obtain ⟨t, heq⟩ :=
          gridAccept_accept _ (detect_grid_relaxed rl gs) r hr h2
        rw [hD, heq]
    · rw [hD, gridAccept_no_main _ _ h2]
      by_cases hrel : (detect_grid_relaxed rl gs).confidence > 0.1
      · rw [if_pos hrel]
        simp [hrel]
      · rw [if_neg hrel]
        simp [h2, hrel]
  · intro c
    constructor
    · rintro ⟨t, ht, htc⟩
      have hmem : t = 0.7 ∨ t = 0.5 ∨ t = 0.3 ∨ t = 0.2 := by
        simpa [gridThresholds] using ht
      rcases hmem with h | h | h | h <;> subst h <;> linarith
    · intro h
      exact ⟨0.2, by simp [gridThresholds], h⟩
  · rintro c c' hcc ⟨t, ht, htc⟩
    exact ⟨t, ht, lt_of_lt_of_le htc hcc⟩
  · intro h2
    obtain ⟨r, hr⟩ := Option.isSome_iff_exists.mp
      (pickBest_isSome_of_pos _ _ (lt_trans (by norm_num) h2))
    obtain ⟨hmem, hconf⟩ := pickBest_some _ _ _ hr
    obtain ⟨t, heq⟩ := gridAccept_accept _ (detect_grid_relaxed rl gs) r hr h2
    rw [hD, heq]
    exact ⟨rfl, hconf.symm⟩
  · intro h2
    rw [hD, gridAccept_no_main _ _ h2]
    constructor
    · by_cases hrel : (detect_grid_relaxed rl gs).confidence > 0.1
      · rw [if_pos hrel]
        simp [hrel]
      · rw [if_neg hrel]
        simp [hrel]
    · intro hrel
      rw [if_pos hrel]
      exact detect_grid_relaxed_method rl gs

/-- C9 counterexample: the claim says every confidence produced by any
detector lies in [0, 1], but the morphological detector, fed more than
two line contours per orientation whose centroids coincide (three
horizontal centroids at y = 5 and three vertical at x = 7), passes its
length guard with both mean spacings 0 and computes `0.0/0.0` in the
regularity term: the produced confidence is IEEE NaN — marked
`confidence_isNaN` in the embedding — which is not a number in
[0, 1]. -/
theorem c9_counterexample :
    (detect_grid_morphological [5, 5, 5] [7, 7, 7] 10).confidence_isNaN =
      true ∧
    2 < ([5, 5, 5] : List ℚ).length ∧ 2 < ([7, 7, 7] : List ℚ).length ∧
    meanSpacing [5, 5, 5] = 0 ∧ meanSpacing [7, 7, 7] = 0 := by
  have h5 : meanSpacing ([5, 5, 5] : List ℚ) = 0 := by
    norm_num [meanSpacing, npmean, npdiff, pysort, List.insertionSort,
      List.orderedInsert]
  have h7 : meanSpacing ([7, 7, 7] : List ℚ) = 0 := by
    norm_num [meanSpacing, npmean, npdiff, pysort, List.insertionSort,
      List.orderedInsert]
  refine ⟨?_, by norm_num, by norm_num, h5, h7⟩
  rw [detect_grid_morphological_isNaN_iff]
  refine ⟨⟨by norm_num, by norm_num⟩, ?_⟩
  rw [h5, h7]
  norm_num

/-- C9 amended: every confidence produced by the hough, frequency and
relaxed-fallback grid detectors, the four segmentation strategies
(watershed, adaptive threshold, color-based, edge-based), and the
calibration fallback / validator lies in [0, 1], and the internal
percentage-valued quality score of `estimate_grid_quality` lies in
[0, 100] — with one exception: the morphological detector's confidence
is IEEE NaN (not a number in [0, 1]) exactly when its length guard
passes with all centroids coincident in both orientations (maximal mean
spacing 0, where the source divides 0.0 by 0.0); in every other case it
too lies in [0, 1], and the NaN result can never be selected, since its
comparison against the running best confidence — which never drops
below 0 — is false.  The hypotheses state the nonnegativity facts the
OpenCV library guarantees for its outputs (`cv2.contourArea ≥ 0`,
summed edge intensities ≥ 0, `cv2.HoughLines` never returns an empty
array, image area positive). -/
theorem c9_confidence_bounds (hl rl : Option (List (ℚ × ℚ)))
    (mh mv : List ℚ) (fw fh w h : ℕ) (hp vp : List ℕ)
    (gs ppm total edge_sum : ℚ) (g : ContourGeom) (isC : Bool)
    (largest : Option ContourGeom) (angles : List ℚ)
    (harea : 0 ≤ g.area_pixels) (htotal : 0 < total)
    (hesum : 0 ≤ edge_sum) (hangles : angles ≠ []) :
    ((detect_grid_hough hl gs).confidence_isNaN = false ∧
      0 ≤ (detect_grid_hough hl gs).confidence ∧
      (detect_grid_hough hl gs).confidence ≤ 1) ∧
    (((detect_grid_morphological mh mv gs).confidence_isNaN = true ↔
        (2 < mh.length ∧ 2 < mv.length) ∧
          max (meanSpacing mh) (meanSpacing mv) = 0) ∧
      ((detect_grid_morphological mh mv gs).confidence_isNaN = false →
        0 ≤ (detect_grid_morphological mh mv gs).confidence ∧
        (detect_grid_morphological mh mv gs).confidence ≤ 1) ∧
      ((detect_grid_morphological mh mv gs).confidence_isNaN = true →
        (detect_grid_morphological mh mv gs).confidence = 0)) ∧
    ((detect_grid_frequency fw fh hp vp gs).confidence_isNaN = false ∧
      0 ≤ (detect_grid_frequency fw fh hp vp gs).confidence ∧
      (detect_grid_frequency fw fh hp vp gs).confidence ≤ 1) ∧
    ((detect_grid_relaxed rl gs).confidence_isNaN = false ∧
      0 ≤ (detect_grid_relaxed rl gs).confidence ∧
      (detect_grid_relaxed rl gs).confidence ≤ 1) ∧
    (0 ≤ (segment_watershed (some g) total).confidence ∧
      (segment_watershed (some g) total).confidence ≤ 1) ∧
    (0 ≤ (segment_adaptive_threshold (some g)).confidence ∧
      (segment_adaptive_threshold (some g)).confidence ≤ 1) ∧
    (0 ≤ (segment_color_based isC largest total).confidence ∧
      (segment_color_based isC largest total).confidence ≤ 1) ∧
    (0 ≤ (segment_edge_based largest total edge_sum).confidence ∧
      (segment_edge_based largest total edge_sum).confidence ≤ 1) ∧
    (0 ≤ (validate_calibration ppm w h).confidence ∧
      (validate_calibration ppm w h).confidence ≤ 1) ∧
    (0 ≤ (get_fallback_calibration w h).confidence ∧
      (get_fallback_calibration w h).confidence ≤ 1) ∧
    (0 ≤ (create_emergency_calibration w).confidence ∧
      (create_emergency_calibration w).confidence ≤ 1) ∧
    (0 ≤ (estimate_grid_quality (some angles)).quality ∧
      (estimate_grid_quality (some angles)).quality ≤ 100) ∧
    (0 ≤ (estimate_grid_quality none).quality ∧
      (estimate_grid_quality none).quality ≤ 100) ∧
    (∀ rs : List MethodResult,
      0 ≤ (pickBest MethodResult.confidence rs).2) := by
  refine ⟨⟨detect_grid_hough_not_nan hl gs, detect_grid_hough_conf_bounds
      hl gs⟩,
    ⟨detect_grid_morphological_isNaN_iff mh mv gs,
      detect_grid_morphological_conf_bounds mh mv gs,
      detect_grid_morphological_nan_conf mh mv gs⟩,
    ⟨detect_grid_frequency_not_nan fw fh hp vp gs,
      detect_grid_frequency_conf_bounds fw fh hp vp gs⟩,
    ⟨detect_grid_relaxed_not_nan rl gs,
      detect_grid_relaxed_conf_bounds rl gs⟩,
    segment_watershed_conf_bounds g total harea htotal,
    segment_adaptive_conf_bounds g harea,
    segment_color_conf_bounds isC largest total,
    segment_edge_conf_bounds largest total edge_sum hesum,
    validate_calibration_conf_bounds ppm w h,
    ?_, ?_,
    estimate_grid_quality_some_bounds angles hangles,
    ?_,
    fun rs => pickBest_snd_nonneg MethodResult.confidence rs⟩
  · rw [get_fallback_calibration_const]
    norm_num
  · have hc : (create_emergency_calibration w).confidence = 0.3 := rfl
    rw [hc]
    norm_num
  · have hq : (estimate_grid_quality none).quality = 0 := rfl
    rw [hq]
    norm_num

/-- C10: `segment_biopsy` never accepts the edge-based strategy: its
confidence is capped at 0.5 while acceptance requires confidence
strictly greater than 0.5, so a returned result with
`biopsy_detected = true` never has `method_used = "edge_based"`. -/
theorem c10_edge_based_never_accepted (candidates : List SegCandidate)
    (largest : Option ContourGeom) (total edge_sum : ℚ)
    (hedge : ∀ c ∈ candidates, c.method_used = "edge_based" →
      c.confidence ≤ 0.5) :
    (segment_edge_based largest total edge_sum).confidence ≤ 0.5 ∧
    ((segment_biopsy candidates).biopsy_detected = true →
      (segment_biopsy candidates).method_used ≠ "edge_based") := by
  constructor
  · cases largest with
    | none => norm_num [segment_edge_based]
    | some g =>
      simp only [segment_edge_based]
      by_cases hband :
          g.area_pixels > total * 0.02 ∧ g.area_pixels < total * 0.7
      · rw [if_pos hband]
        exact min_le_left _ _
      · rw [if_neg hband]
        norm_num
  · intro hdet
    rcases hb : (pickBest SegCandidate.confidence candidates).1 with _ | r
    · have hsb : segment_biopsy candidates = ⟨false, 0, "", none⟩ := by
        simp only [segment_biopsy]
        rw [hb]
      rw [hsb] at hdet
      simp at hdet
    · by_cases h5 : (pickBest SegCandidate.confidence candidates).2 > 0.5
      · have hsb : segment_biopsy candidates =
            ⟨true, r.confidence, r.method_used, r.contour⟩ := by
          simp only [segment_biopsy]
          rw [hb]
          simp [h5]
        rw [hsb]
        intro hm
        obtain ⟨hmem, hconf⟩ := pickBest_some _ _ _ hb
        have hle := hedge r hmem hm
        rw [hconf] at h5
        linarith
      · have hsb : segment_biopsy candidates = ⟨false, 0, "", none⟩ := by
          simp only [segment_biopsy]
          rw [hb]
          simp [h5]
        rw [hsb] at hdet
        simp at hdet

/-- C4 counterexample: the claim asserts that on a degenerate contour
every ratio field with a zero denominator — `aspect_ratio` included —
is 0.  On a five-point contour of zero perimeter whose ellipse fit is
degenerate (both axes 0), the minor-axis denominator of `aspect_ratio`
is 0, yet `calculate_measurements` returns `aspect_ratio = 1`, not 0
(the source's guard reads `else 1`). -/
theorem c4_counterexample :
    (⟨5, 0, 0, 1, 1, 0, 0, 0, 0⟩ : ContourGeom).perimeter_pixels = 0 ∧
    (0 : ℚ) < 1 ∧
    (measurementAxes ⟨5, 0, 0, 1, 1, 0, 0, 0, 0⟩ 1).2.1 = 0 ∧
    (calculate_measurements (fun _ => 0)
        (some ⟨5, 0, 0, 1, 1, 0, 0, 0, 0⟩) 1).map MeasRecord.aspect_ratio =
      some 1 ∧
    (1 : ℚ) ≠ 0 := by
  refine ⟨rfl, by norm_num, by norm_num [measurementAxes], ?_, by norm_num⟩
  norm_num [calculate_measurements, measurementAxes, roundTo_one]

/-- C4 amended: for every contour geometry and `pixels_per_mm > 0`,
`calculate_measurements` is total; an absent or zero-point contour
yields the empty mapping; the ratio fields `circularity`, `roundness`,
`compactness` (zero perimeter), `solidity` (zero hull area) and `extent`
(zero bounding-box area) are 0 when their denominator is 0; but
`aspect_ratio` is defined as 1, not 0, when its denominator (the minor
axis) is 0. -/
theorem c4_division_guards (sqrtA : ℚ → ℚ) (g : ContourGeom) (ppm : ℚ)
    (_hppm : 0 < ppm) :
    calculate_measurements sqrtA none ppm = none ∧
    (g.nPoints = 0 → calculate_measurements sqrtA (some g) ppm = none) ∧
    (∀ m, calculate_measurements sqrtA (some g) ppm = some m →
      (g.perimeter_pixels = 0 →
        m.circularity = 0 ∧ m.roundness = 0 ∧ m.compactness = 0) ∧
      (g.hull_area = 0 → m.solidity = 0) ∧
      (g.bbox_w * g.bbox_h = 0 → m.extent = 0) ∧
      ((measurementAxes g ppm).2.1 = 0 → m.aspect_ratio = 1)) := by
  refine ⟨rfl, ?_, ?_⟩
  · intro h0
    simp [calculate_measurements, h0]
  · intro m hm
    by_cases h0 : g.nPoints = 0
    · simp [calculate_measurements, h0] at hm
    · simp only [calculate_measurements] at hm
      rw [if_neg h0] at hm
      have hm' := Option.some.inj hm
      subst hm'
      refine ⟨?_, ?_, ?_, ?_⟩
      · intro hper
        refine ⟨?_, ?_, ?_⟩ <;> simp [hper, roundTo_zero]
      · intro hhull
        simp [hhull, roundTo_zero]
      · intro hbb
        simp [hbb, roundTo_zero]
      · intro hax
        simp [hax, roundTo_one]

/-! ## Witnesses -/

/-- Witness for C1 at a concrete failing detection and segmentation. -/
theorem c1_witness :
    (analyze_biopsy_complete (fun _ => 0) 640 480 10 none
        ⟨false, 0, 0, "", 0, none⟩ ⟨false, 0, "", none⟩).success = true ∧
    (get_fallback_calibration 640 480).warning ∈
      (analyze_biopsy_complete (fun _ => 0) 640 480 10 none
        ⟨false, 0, 0, "", 0, none⟩ ⟨false, 0, "", none⟩).warnings ∧
    (analyze_biopsy_complete (fun _ => 0) 640 480 10 none
        ⟨false, 0, 0, "", 0, none⟩ ⟨false, 0, "", none⟩).warnings ≠ [] := by
  have h := c1_graceful_degradation 640 480 10 (fun _ => 0)
    ⟨false, 0, 0, "", 0, none⟩ ⟨false, 0, "", none⟩
  exact ⟨h.1, (h.2.1 rfl).2.2, (h.2.2 rfl).2.2⟩

/-- Witness for C2 (amended) at concrete inputs. -/
theorem c2_witness :
    (0 : ℚ) < 10 ∧
    0 < (get_fallback_calibration 640 480).pixels_per_mm ∧
    0 < (analyze_biopsy_complete (fun _ => 0) 640 480 10 (some 1)
      ⟨false, 0, 0, "", 0, none⟩
      ⟨false, 0, "", none⟩).grid_detection.pixels_per_mm := by
  have h := c2_scale_positivity none none [] [] 0 0 640 480 [] [] 10 1
    (fun _ => 0) ⟨false, 0, 0, "", 0, none⟩ ⟨false, 0, "", none⟩
    (by norm_num)
  exact ⟨by norm_num, h.2.1, h.2.2.2 (by norm_num)⟩

/-- Witness for C4 (amended) at a concrete degenerate geometry. -/
theorem c4_witness :
    (0 : ℚ) < 1 ∧
    calculate_measurements (fun _ => 0) none 1 = none ∧
    calculate_measurements (fun _ => 0)
      (some ⟨0, 0, 0, 1, 1, 0, 0, 0, 0⟩) 1 = none := by
  have h := c4_division_guards (fun _ => 0) ⟨0, 0, 0, 1, 1, 0, 0, 0, 0⟩ 1
    (by norm_num)
  exact ⟨by norm_num, h.1, h.2.1 rfl⟩

/-- Witness for C6 (amended): a fallback-calibrated analysis with a
detected sample uses the plain mean. -/
theorem c6_witness :
    methodHasFallback "typical_scenario" = false ∧
    (analyze_biopsy_complete (fun _ => 0) 640 480 10 none
        ⟨false, 0, 0, "", 0, none⟩
        ⟨true, 1/2, "watershed", none⟩).confidence_overall =
      ((get_fallback_calibration 640 480).confidence + 1/2) / 2 := by
  have h := c6_confidence_aggregation 640 480 10 (fun _ => 0)
    ⟨false, 0, 0, "", 0, none⟩ ⟨true, 1/2, "watershed", none⟩ rfl
  exact ⟨h.1.2.2.1, h.2.2 rfl⟩

/-- Witness for C8 at a concrete input where every detector fails. -/
theorem c8_witness :
    ¬ 0.2 < (pickBest MethodResult.confidence
        (gridMethodResults none [] [] 0 0 [] [] 10)).2 ∧
    ((detect_grid_advanced none [] [] 0 0 [] [] none 10).grid_detected =
        true ↔
      0.1 < (detect_grid_relaxed none 10).confidence) := by
  have hB : ¬ 0.2 < (pickBest MethodResult.confidence
      (gridMethodResults none [] [] 0 0 [] [] 10)).2 := by
    norm_num [pickBest, gridMethodResults, detect_grid_hough,
      detect_grid_morphological, detect_grid_frequency]
  have h := c8_threshold_acceptance none none [] [] 0 0 [] [] 10
  exact ⟨hB, (h.2.2.2.2 hB).1⟩

/-- Witness for C9 at concrete inputs. -/
theorem c9_witness :
    0 ≤ (⟨1, 0, 0, 1, 1, 0, 0, 0, 0⟩ : ContourGeom).area_pixels ∧
    (0 : ℚ) < 1 ∧ (0 : ℚ) ≤ 0 ∧ ([(0 : ℚ)] ≠ []) ∧
    (0 ≤ (detect_grid_hough none 10).confidence ∧
      (detect_grid_hough none 10).confidence ≤ 1) ∧
    (0 ≤ (validate_calibration 25 640 480).confidence ∧
      (validate_calibration 25 640 480).confidence ≤ 1) ∧
    (0 ≤ (estimate_grid_quality (some [0])).quality ∧
      (estimate_grid_quality (some [0])).quality ≤ 100) := by
  have h := c9_confidence_bounds none none [] [] 0 0 640 480 [] [] 10 25 1 0
    ⟨1, 0, 0, 1, 1, 0, 0, 0, 0⟩ true none [0]
    (by norm_num) (by norm_num) (by norm_num) (by simp)
  exact ⟨by norm_num, by norm_num, le_refl 0, by simp, h.1.2,
    h.2.2.2.2.2.2.2.2.1, h.2.2.2.2.2.2.2.2.2.2.2.1⟩

/-- Witness for C10 at a concrete candidate list containing an
edge-based result. -/
theorem c10_witness :
    (segment_edge_based none 1 0).confidence ≤ 0.5 ∧
    (segment_biopsy [⟨3/10, "edge_based", none⟩,
      ⟨3/5, "watershed", none⟩]).biopsy_detected = true ∧
    (segment_biopsy [⟨3/10, "edge_based", none⟩,
      ⟨3/5, "watershed", none⟩]).method_used ≠ "edge_based" := by
  have hedge : ∀ c ∈ [(⟨3/10, "edge_based", none⟩ : SegCandidate),
      ⟨3/5, "watershed", none⟩],
      c.method_used = "edge_based" → c.confidence ≤ 0.5 := by
    intro c hc
    rcases (by simpa using hc :
        c = (⟨3/10, "edge_based", none⟩ : SegCandidate) ∨
          c = ⟨3/5, "watershed", none⟩) with h | h <;> subst h
    · intro _
      norm_num
    · intro hm
      exact absurd hm (by decide)
  have hdet : (segment_biopsy [⟨3/10, "edge_based", none⟩,
      ⟨3/5, "watershed", none⟩]).biopsy_detected = true := by
    norm_num [segment_biopsy, pickBest]
  have h := c10_edge_based_never_accepted
    [⟨3/10, "edge_based", none⟩, ⟨3/5, "watershed", none⟩] none 1 0 hedge
  exact ⟨h.1, hdet, h.2 hdet⟩

end Macroscopia
